import Mathlib

/-!
# slop: the selection-capture orchestrator (`src/slop.cpp`)

A shallow embedding of `SlopSelect`, `XShapeSlopSelect` and `GLSlopSelect`.

* The frame loop is driven by a finite list of per-iteration snapshots; a run
  that has consumed all of them while the model is still running is `pending`.
* Classes whose code is not part of `slop.cpp` (the selection model, the
  framebuffer, the shaders, the X11 session) appear as parameters.
* Floating point values are only carried around, never computed with, so the
  coordinate type is a parameter.
-/

namespace Slop

/-! ## The effect pipeline (one frame of `GLSlopSelect`) -/

/-- The two render targets of the accelerated path: `window->framebuffer`
(primary) and `pingpong` (scratch). -/
inductive Buf
  | primary
  | pingpong
  deriving DecidableEq, Repr

/-- A `slop::Framebuffer` as the frame loop sees it: the image it holds and the
shader last given to `setShader`. -/
structure Framebuffer (Img S : Type) where
  image : Img
  shader : S
  deriving DecidableEq, Repr

/-- One call of `Framebuffer::draw`: the shader used, the buffer read and the
target written (`none` is the default framebuffer, i.e. the screen). -/
structure Pass (S : Type) where
  effect : S
  src : Buf
  dst : Option Buf
  deriving DecidableEq, Repr

/-- Graphics state touched by the frame loop. `bound` is the framebuffer bound
by `bind` (`none` after `unbind`), `back` the default framebuffer, `shown` what
the last `window->display()` put on screen, `passes` the log of draw calls. -/
structure GLState (Img S : Type) where
  primary : Framebuffer Img S
  pingpong : Framebuffer Img S
  bound : Option Buf
  back : Img
  shown : Img
  blend : Bool
  passes : List (Pass S)
  deriving DecidableEq, Repr

variable {Img S : Type}

/-- The framebuffer object behind a name. -/
def GLState.buffer (g : GLState Img S) : Buf → Framebuffer Img S
  | .primary => g.primary
  | .pingpong => g.pingpong

/-- The call `fb->bind()`. -/
def GLState.bind (b : Buf) (g : GLState Img S) : GLState Img S :=
  { g with bound := some b }

/-- The call `fb->unbind()`. -/
def GLState.unbind (g : GLState Img S) : GLState Img S :=
  { g with bound := none }

/-- Replace the content of the currently bound target. -/
def GLState.write (img : Img) (g : GLState Img S) : GLState Img S :=
  match g.bound with
  | some .primary => { g with primary := { g.primary with image := img } }
  | some .pingpong => { g with pingpong := { g.pingpong with image := img } }
  | none => { g with back := img }

/-- The calls `gl::ClearColor(0,0,0,0); gl::Clear(gl::COLOR_BUFFER_BIT)`. -/
def GLState.clear (blank : Img) (g : GLState Img S) : GLState Img S :=
  g.write blank

/-- The call `fb->setShader( s )`. -/
def GLState.setShader (b : Buf) (s : S) (g : GLState Img S) : GLState Img S :=
  match b with
  | .primary => { g with primary := { g.primary with shader := s } }
  | .pingpong => { g with pingpong := { g.pingpong with shader := s } }

/-- The call `fb->draw( mousePos, time, color )`: the buffer's current shader applied to
its image, written into the bound target. `shade` is the effect of a shader
under this frame's uniforms. -/
def GLState.draw (shade : S → Img → Img) (b : Buf) (g : GLState Img S) : GLState Img S :=
  let fb := g.buffer b
  let g1 := g.write (shade fb.shader fb.image)
  { g1 with passes := g.passes ++ [{ effect := fb.shader, src := b, dst := g.bound }] }

/-- The call `window->display()`. -/
def GLState.display (g : GLState Img S) : GLState Img S :=
  { g with shown := g.back }

/-- Lines 218-223: the rectangle image `rect` drawn by `memory->draw` into the
cleared primary surface. -/
def prepare (blank : Img) (textured : S) (rect : Img) (g : GLState Img S) : GLState Img S :=
  ((((g.setShader .primary textured).bind .primary).clear blank).write rect).unbind

/-- Body of the first loop (lines 232-244) for `shaders[i] = e0`, `shaders[i+1] = e1`. -/
def swapBody (shade : S → Img → Img) (blank : Img) (e0 e1 : S) (g : GLState Img S) :
    GLState Img S :=
  let g1 := ((((g.bind .pingpong).clear blank).setShader .primary e0).draw shade .primary).unbind
  ((((g1.bind .primary).clear blank).setShader .pingpong e1).draw shade .pingpong).unbind

/-- Body of the second loop (lines 247-252) for `shaders[i] = e`. -/
def singleBody (shade : S → Img → Img) (blank : Img) (e : S) (g : GLState Img S) :
    GLState Img S :=
  ((((g.bind .pingpong).clear blank).setShader .primary e).draw shade .primary).unbind

/-- Loop variable `i` with the number of iterations each loop has made. -/
structure Chain (Img S : Type) where
  i : Nat
  swaps : Nat
  singles : Nat
  gl : GLState Img S
  deriving DecidableEq, Repr

/-- The loop `for (i=0; i<=(int)shaders.size()-2; i+=2)` of lines 231-245, at most
`fuel` iterations. -/
def pairLoop (shade : S → Img → Img) (blank : Img) (shaders : List S) :
    Nat → Chain Img S → Chain Img S
  | 0, c => c
  | fuel + 1, c =>
    if h : (c.i : Int) ≤ (shaders.length : Int) - 2 then
      pairLoop shade blank shaders fuel
        { i := c.i + 2, swaps := c.swaps + 1, singles := c.singles,
          gl := swapBody shade blank (shaders.get ⟨c.i, by omega⟩)
                  (shaders.get ⟨c.i + 1, by omega⟩) c.gl }
    else c

/-- The loop `for (; i<shaders.size(); i++)` of lines 246-253, at most `fuel`
iterations. -/
def tailLoop (shade : S → Img → Img) (blank : Img) (shaders : List S) :
    Nat → Chain Img S → Chain Img S
  | 0, c => c
  | fuel + 1, c =>
    if h : c.i < shaders.length then
      tailLoop shade blank shaders fuel
        { i := c.i + 1, swaps := c.swaps, singles := c.singles + 1,
          gl := singleBody shade blank (shaders.get ⟨c.i, h⟩) c.gl }
    else c

/-- Lines 227-253: blending on, then both loops. Neither loop can make more
than `shaders.length` iterations, which is the fuel given. -/
def effectChain (shade : S → Img → Img) (blank : Img) (shaders : List S)
    (g : GLState Img S) : Chain Img S :=
  let c0 : Chain Img S := { i := 0, swaps := 0, singles := 0, gl := { g with blend := true } }
  tailLoop shade blank shaders shaders.length (pairLoop shade blank shaders shaders.length c0)

/-- The buffer line 255 picks for the final draw. -/
def presentSource (i : Nat) : Buf :=
  if i % 2 != 0 then .primary else .pingpong

/-- Lines 254-259: blending off and the final draw to the screen. -/
def present (shade : S → Img → Img) (c : Chain Img S) : GLState Img S :=
  GLState.draw shade (presentSource c.i) { c.gl with blend := false }

/-- Lines 218-261 without the model's own side of `memory->draw`. -/
def renderFrame (shade : S → Img → Img) (blank : Img) (textured : S) (shaders : List S)
    (rect : Img) (g : GLState Img S) : GLState Img S :=
  (present shade (effectChain shade blank shaders (prepare blank textured rect g))).display

/-- Start state for experiments: both buffers blank with shader `s`. -/
def GLState.init (blank : Img) (s : S) : GLState Img S :=
  { primary := ⟨blank, s⟩, pingpong := ⟨blank, s⟩, bound := none, back := blank,
    shown := blank, blend := false, passes := [] }

/-- The two loops as one recursion over the effects still to be processed
(proved equal to `tailLoop` after `pairLoop` below). -/
def chainSpec (shade : S → Img → Img) (blank : Img) : List S → Chain Img S → Chain Img S
  | e0 :: e1 :: rest, c =>
    chainSpec shade blank rest
      { i := c.i + 2, swaps := c.swaps + 1, singles := c.singles,
        gl := swapBody shade blank e0 e1 c.gl }
  | [e], c =>
    { i := c.i + 1, swaps := c.swaps, singles := c.singles + 1,
      gl := singleBody shade blank e c.gl }
  | [], c => c

/-- The pass claimed for the effect at position `k`: primary into scratch for
even `k`, scratch into primary for odd `k`. -/
def passOf (k : Nat) (e : S) : Pass S :=
  { effect := e,
    src := if k % 2 = 0 then .primary else .pingpong,
    dst := some (if k % 2 = 0 then .pingpong else .primary) }

/-- Claimed passes for effects numbered from `k`. -/
def expectedFrom (k : Nat) (shaders : List S) : List (Pass S) :=
  (shaders.enumFrom k).map (fun p => passOf p.1 p.2)

/-- Claimed passes of one frame, in list order. -/
def expectedPasses (shaders : List S) : List (Pass S) :=
  shaders.enum.map (fun p => passOf p.1 p.2)

/-! ## Options, input snapshots, the selection model -/

/-- The fields of `SlopOptions` that `slop.cpp` itself branches on. The other
fields (border, padding, colour, highlight, decorations, display name) are only
handed to constructors defined elsewhere. -/
structure SlopOptions where
  nokeyboard : Bool
  noopengl : Bool
  shaders : List String
  deriving DecidableEq, Repr

/-- The constructor `SlopOptions::SlopOptions()`, lines 37-56. -/
def SlopOptions.defaults : SlopOptions :=
  { nokeyboard := false, noopengl := false, shaders := ["textured"] }

/-- What `mouse->update()`, `keyboard->update()` and the clock deliver in one
iteration: whether any key is down, the pointer buttons held, the pointer
position, and `dt`, the clock difference to the previous iteration. -/
structure Input where
  anyKeyDown : Bool
  buttons : List Nat
  mouseX : Int
  mouseY : Int
  dt : Nat
  deriving DecidableEq, Repr

/-- The call `mouse->getButton( n )`. -/
def Input.getButton (inp : Input) (n : Nat) : Bool :=
  inp.buttons.contains n

/-- One iteration of the accelerated loop: the snapshot and the value
`gl::GetError()` returns after the render sequence. -/
structure Frame where
  input : Input
  glError : Nat
  deriving DecidableEq, Repr

/-- The type `glm::vec4`. -/
structure Vec4 (F : Type) where
  x : F
  y : F
  z : F
  w : F
  deriving DecidableEq, Repr

/-- The class `slop::SlopSelection`, lines 58-64. -/
structure SlopSelection (F : Type) where
  x : F
  y : F
  w : F
  h : F
  id : Int
  deriving DecidableEq, Repr

/-- The class `SlopMemory` as far as the loop touches it directly: the public `running`
field, which the loop itself writes, and everything else. -/
structure SlopMemory (σ : Type) where
  running : Bool
  core : σ
  deriving DecidableEq, Repr

/-- Modelled from the spec: the Selection Model (`SlopMemory`, declared in
`slopstates.hpp`, which is not among the sources). `update(dt)` advances the
model from the polled input and "may clear `running`"; `draw(transform)` has
draw-time side effects on the model but is not said to touch `running`;
`rect()` and `selectedWindow` are read after the loop. `selectedWindow` is an
X11 `Window` (an unsigned long). -/
structure Model (σ T F : Type) where
  update : Input → SlopMemory σ → SlopMemory σ
  draw : T → σ → σ
  getRect : σ → Vec4 F
  selectedWindow : σ → Nat

/-- Conversion of an unsigned long to the `int id` parameter of the
`SlopSelection` constructor. -/
def toInt32 (n : Nat) : Int :=
  if n % 2 ^ 32 < 2 ^ 31 then ((n % 2 ^ 32 : Nat) : Int) else ((n % 2 ^ 32 : Nat) : Int) - 2 ^ 32

/-- Lines 161/167/180 and 287/303/316: the selection built from the model. -/
def selectionOf {σ T F : Type} (M : Model σ T F) (m : SlopMemory σ) : SlopSelection F :=
  let output := M.getRect m.core
  { x := output.x, y := output.y, w := output.z, h := output.w,
    id := toInt32 (M.selectedWindow m.core) }

/-! ## The frame loops -/

/-- A call the loop makes on the selection model. -/
inductive Call (T : Type)
  | update (inp : Input)
  | draw (t : T)
  deriving DecidableEq, Repr

/-- Loop state: the model, the caller's flag (`none` when the `cancelled`
pointer is null, otherwise the value the pointed-to bool holds), and a record
of the iterations started, the model calls made and the values written to the
flag. -/
structure Loop (σ T : Type) where
  memory : SlopMemory σ
  cancelled : Option Bool
  iters : Nat
  calls : List (Call T)
  writes : List Bool
  deriving DecidableEq, Repr

/-- How a frame loop stops: its condition was found false (`exited`), an error
was thrown, the `else` branch wrote through a null `cancelled`, or the given
snapshots are used up with the model still running (`pending`). -/
inductive Stop
  | exited
  | raised (what : String)
  | nullWrite
  | pending
  deriving DecidableEq, Repr

/-- The condition of lines 150 and 276. -/
def cancelInput (o : SlopOptions) (inp : Input) : Bool :=
  (!o.nokeyboard && inp.anyKeyDown) || inp.getButton 3

/-- Lines 150-157, and identically 276-283. `none` is the write through a null
pointer in the `else` branch. -/
def terminationCheck {σ T : Type} (o : SlopOptions) (inp : Input) (st : Loop σ T) :
    Option (Loop σ T) :=
  if cancelInput o inp then
    match st.cancelled with
    | some _ =>
      some { st with memory := { st.memory with running := false }, cancelled := some true,
                     writes := st.writes ++ [true] }
    | none => some { st with memory := { st.memory with running := false } }
  else
    match st.cancelled with
    | some _ => some { st with cancelled := some false, writes := st.writes ++ [false] }
    | none => none

/-- Lines 130-158: the loop of `XShapeSlopSelect`. `fake` is the local matrix
passed to `memory->draw`. -/
def xshapeLoop {σ T F : Type} (M : Model σ T F) (o : SlopOptions) (fake : T) :
    List Input → Loop σ T → Loop σ T × Stop
  | [], st => (st, if st.memory.running then .pending else .exited)
  | inp :: rest, st =>
    if st.memory.running then
      let m1 := M.update inp st.memory
      let m2 : SlopMemory σ := { m1 with core := M.draw fake m1.core }
      let st1 : Loop σ T :=
        { st with memory := m2, iters := st.iters + 1,
                  calls := st.calls ++ [.update inp, .draw fake] }
      match terminationCheck o inp st1 with
      | some st2 => xshapeLoop M o fake rest st2
      | none => (st1, .nullWrite)
    else (st, .exited)

/-! ## Resources -/

/-- A shader object of `GLSlopSelect`: the built-in one made at line 188, or
the one loaded at line 193 for position `i` of the option list. -/
inductive ShaderRef
  | textured
  | loaded (i : Nat) (name : String)
  deriving DecidableEq, Repr

/-- The heap objects and connections of a run. -/
inductive Res
  | options
  | resource
  | x11
  | keyboard
  | window
  | mouse
  | shader (s : ShaderRef)
  | memory
  | pingpong
  deriving DecidableEq, Repr

/-- Resource events. `attempt`: a constructor that may throw is called; `acquire`: an object
exists from here on; `release`: `delete`. -/
inductive ResEv
  | attempt (r : Res)
  | acquire (r : Res)
  | release (r : Res)
  deriving DecidableEq, Repr

/-- How a run of a backend ends, as its caller sees it. -/
inductive Outcome (F : Type)
  | returned (sel : SlopSelection F)
  | raised (what : String)
  | nullWrite
  | pending
  deriving DecidableEq, Repr

/-- Result of a backend: how it ended, the final loop state and the resource
events in program order. -/
structure Run (σ T F : Type) where
  outcome : Outcome F
  loop : Loop σ T
  res : List ResEv

/-- What the code after a loop makes of the way the loop stopped: only a loop
whose condition was found false reaches the `return`. -/
def outcomeOf {σ T F : Type} (M : Model σ T F) (m : SlopMemory σ) : Stop → Outcome F
  | .exited => .returned (selectionOf M m)
  | .raised what => .raised what
  | .nullWrite => .nullWrite
  | .pending => .pending

/-- Start of a loop for a caller-supplied flag. -/
def Loop.start {σ T : Type} (m : SlopMemory σ) (cancelled : Option Bool) : Loop σ T :=
  { memory := m, cancelled := cancelled, iters := 0, calls := [], writes := [] }

/-- The function `XShapeSlopSelect`, lines 121-181. `m0` is the model built at line 123.
The wait for the window to disappear (lines 171-178) does not touch anything
modelled here. -/
def XShapeSlopSelect {σ T F : Type} (M : Model σ T F) (m0 : SlopMemory σ) (fake : T)
    (options : SlopOptions) (cancelled : Option Bool) (inputs : List Input) : Run σ T F :=
  let r := xshapeLoop M options fake inputs (Loop.start m0 cancelled)
  { outcome := outcomeOf M r.1.memory r.2,
    loop := r.1,
    res := [ResEv.acquire .memory, ResEv.acquire .mouse] ++
      (match r.2 with
       | .exited => [ResEv.release .mouse, ResEv.release .memory]
       | _ => []) }

/-! ## The accelerated backend -/

/-- Shader inputs of one frame: pointer position and time since the start of
the run (the fill colour is fixed by the options). -/
structure Uniforms where
  mouseX : Int
  mouseY : Int
  elapsed : Nat
  deriving DecidableEq, Repr

/-- The drawing side, whose code is not in `slop.cpp`: the cleared image, the
picture `memory->draw( camera )` leaves in the bound target, and the effect of
a shader under given uniforms. -/
structure Renderer (σ T Img : Type) where
  blank : Img
  rectImage : T → σ → Img
  shade : Uniforms → ShaderRef → Img → Img

/-- The class `SlopWindow` as used here: its camera matrix, its framebuffer and the
content of the default framebuffer. -/
structure SlopWindow (T Img : Type) where
  camera : T
  framebuffer : Framebuffer Img ShaderRef
  back : Img
  shown : Img

/-- Loop state of the accelerated backend. -/
structure GLLoop (σ T Img : Type) extends Loop σ T where
  gl : GLState Img ShaderRef
  elapsed : Nat

/-- The constant `gl::NO_ERROR_`. -/
def NO_ERROR : Nat := 0

/-- Lines 266-273, with the values OpenGL gives these constants. -/
def errorName (err : Nat) : String :=
  if err = 0x0502 then "INVALID_OPERATION"
  else if err = 0x0500 then "INVALID_ENUM"
  else if err = 0x0501 then "INVALID_VALUE"
  else if err = 0x0505 then "OUT_OF_MEMORY"
  else if err = 0x0506 then "INVALID_FRAMEBUFFER_OPERATION"
  else ""

/-- The text of the exception thrown at line 274. -/
def glMessage (err : Nat) : String :=
  "OpenGL threw an error: " ++ errorName err

/-- Lines 190-197: the shader vector built from the option list, starting at
position `i`. -/
def buildShaders : Nat → List String → List ShaderRef
  | _, [] => []
  | i, sn :: rest =>
    (if sn != "textured" then ShaderRef.loaded i sn else ShaderRef.textured)
      :: buildShaders (i + 1) rest

/-- The `new slop::Shader` calls of lines 188-197, in order. -/
def shaderAcquires (shaders : List ShaderRef) : List ResEv :=
  ResEv.acquire (.shader .textured) ::
    (shaders.filter (fun s => s != ShaderRef.textured)).map (fun s => ResEv.acquire (.shader s))

/-- Lines 297-299: `delete shaders[i]` for every position. -/
def shaderReleases (shaders : List ShaderRef) : List ResEv :=
  shaders.map (fun s => ResEv.release (.shader s))

/-- Lines 206-284: the loop of `GLSlopSelect`. -/
def glLoop {σ T F Img : Type} (M : Model σ T F) (R : Renderer σ T Img) (o : SlopOptions)
    (camera : T) (shaders : List ShaderRef) :
    List Frame → GLLoop σ T Img → GLLoop σ T Img × Stop
  | [], st => (st, if st.memory.running then .pending else .exited)
  | fr :: rest, st =>
    if st.memory.running then
      let inp := fr.input
      let m1 := M.update inp st.memory
      let rect := R.rectImage camera m1.core
      let m2 : SlopMemory σ := { m1 with core := M.draw camera m1.core }
      let elapsed := st.elapsed + inp.dt
      let gl1 := renderFrame (R.shade ⟨inp.mouseX, inp.mouseY, elapsed⟩) R.blank
        ShaderRef.textured shaders rect st.gl
      let st1 : GLLoop σ T Img :=
        { st with memory := m2, iters := st.iters + 1,
                  calls := st.calls ++ [.update inp, .draw camera],
                  gl := gl1, elapsed := elapsed }
      if fr.glError != NO_ERROR then
        (st1, .raised (glMessage fr.glError))
      else
        match terminationCheck o inp st1.toLoop with
        | some l2 => glLoop M R o camera shaders rest { st1 with toLoop := l2 }
        | none => (st1, .nullWrite)
    else (st, .exited)

/-- Loop state on entry of the accelerated loop: the window's framebuffer as
primary surface, the new ping-pong buffer, nothing bound. -/
def glStart {σ T Img : Type} (m0 : SlopMemory σ) (cancelled : Option Bool)
    (window : SlopWindow T Img) (pingpong : Framebuffer Img ShaderRef) : GLLoop σ T Img :=
  { Loop.start m0 cancelled with
    gl := { primary := window.framebuffer, pingpong := pingpong, bound := none,
            back := window.back, shown := window.shown, blend := false, passes := [] },
    elapsed := 0 }

/-- Result of the accelerated backend: the run and the final graphics state. -/
structure GLRun (σ T F Img : Type) extends Run σ T F where
  gl : GLState Img ShaderRef

/-- The function `GLSlopSelect`, lines 183-317. `m0` is the model built at line 199 and
`pingpong` the framebuffer built at line 201. -/
def GLSlopSelect {σ T F Img : Type} (M : Model σ T F) (R : Renderer σ T Img)
    (m0 : SlopMemory σ) (pingpong : Framebuffer Img ShaderRef) (options : SlopOptions)
    (cancelled : Option Bool) (window : SlopWindow T Img) (frames : List Frame) :
    GLRun σ T F Img :=
  let shaders := buildShaders 0 options.shaders
  let res0 := [ResEv.acquire .mouse] ++ shaderAcquires shaders
    ++ [ResEv.acquire .memory, ResEv.acquire .pingpong]
  let r := glLoop M R options window.camera shaders frames
    (glStart m0 cancelled window pingpong)
  { outcome := outcomeOf M r.1.memory r.2,
    loop := r.1.toLoop,
    res := res0 ++
      (match r.2 with
       | .exited =>
         shaderReleases shaders
           ++ [.release .pingpong, .release .window, .release .mouse, .release .memory]
       | _ => []),
    gl := match r.2 with
      | .exited => (((r.1.gl.clear R.blank).display).clear R.blank).display
      | _ => r.1.gl }

/-! ## `SlopSelect` -/

/-- What `SlopSelect` finds around it: whether `x11->hasCompositor()` holds,
what `new SlopWindow()` does (`.error (some msg)` for a thrown
`std::exception*`, `.error none` for anything else thrown), the models and the
framebuffer the constructors of lines 123, 199 and 201 produce, and the
default-constructed matrix of line 127. -/
structure Env (σ T Img : Type) where
  hasCompositor : Bool
  newWindow : Except (Option String) (SlopWindow T Img)
  xshapeMemory : SlopOptions → SlopMemory σ
  glMemory : SlopOptions → SlopMemory σ
  newPingpong : Framebuffer Img ShaderRef
  fake : T

/-- The backend a run ended up on. -/
inductive Backend
  | xshape
  | gl
  deriving DecidableEq, Repr

/-- Result of `SlopSelect`: the backend used, how the run ended, the final
loop state, every resource event in program order and the text sent to
`std::cerr`. -/
structure Session (σ T F : Type) where
  backend : Backend
  outcome : Outcome F
  loop : Loop σ T
  res : List ResEv
  stderr : String

/-- Lines 113-117. -/
def teardown (deleteOptions : Bool) : List ResEv :=
  [ResEv.release .x11, ResEv.release .resource]
    ++ (if deleteOptions then [ResEv.release .options] else [])

/-- Lines 113-117 are reached only when the backend returned. -/
def afterBackend {F : Type} (deleteOptions : Bool) : Outcome F → List ResEv
  | .returned _ => teardown deleteOptions
  | _ => []

/-- Lines 69-80: the objects made before the backend is chosen. -/
def sessionAcquires (deleteOptions : Bool) (opts : SlopOptions) : List ResEv :=
  (if deleteOptions then [ResEv.acquire .options] else [])
    ++ [ResEv.acquire .resource, ResEv.acquire .x11]
    ++ (if !opts.nokeyboard then [ResEv.acquire .keyboard] else [])

/-- Lines 81-98: the window if one could be built, `errorstring`, and the
resource events of the attempt. -/
def probeWindow {σ T Img : Type} (E : Env σ T Img) (opts : SlopOptions) :
    Option (SlopWindow T Img) × String × List ResEv :=
  if E.hasCompositor && !opts.noopengl then
    match E.newWindow with
    | .ok w => (some w, "", [ResEv.attempt .window, ResEv.acquire .window])
    | .error (some what) => (none, what ++ "\n", [ResEv.attempt .window])
    | .error none => (none, "", [ResEv.attempt .window])
  else
    (none, "Failed to detect a compositor, OpenGL hardware-accelleration disabled...\n", [])

/-- Lines 101-108: what goes to `std::cerr` before the fallback starts. -/
def diagnostic (quiet : Bool) (opts : SlopOptions) (errorstring : String) : String :=
  if !quiet && !opts.noopengl then
    if errorstring.length ≤ 0 then
      errorstring ++ "Failed to launch OpenGL context, --shader parameter will be ignored.\n"
    else errorstring
  else ""

/-- The function `SlopSelect`, lines 66-119. -/
def SlopSelect {σ T F Img : Type} (E : Env σ T Img) (M : Model σ T F) (R : Renderer σ T Img)
    (options : Option SlopOptions) (cancelled : Option Bool) (quiet : Bool)
    (frames : List Frame) : Session σ T F :=
  let deleteOptions := options.isNone
  let opts := options.getD SlopOptions.defaults
  match probeWindow E opts with
  | (none, errorstring, res1) =>
    let r := XShapeSlopSelect M (E.xshapeMemory opts) E.fake opts cancelled
      (frames.map Frame.input)
    { backend := .xshape, outcome := r.outcome, loop := r.loop,
      stderr := diagnostic quiet opts errorstring,
      res := sessionAcquires deleteOptions opts ++ res1 ++ r.res
        ++ afterBackend deleteOptions r.outcome }
  | (some window, _, res1) =>
    let r := GLSlopSelect M R (E.glMemory opts) E.newPingpong opts cancelled window frames
    { backend := .gl, outcome := r.outcome, loop := r.loop, stderr := "",
      res := sessionAcquires deleteOptions opts ++ res1 ++ r.res
        ++ afterBackend deleteOptions r.outcome }

/-- Whether a run ended by throwing. -/
def Outcome.isRaised {F : Type} : Outcome F → Bool
  | .raised _ => true
  | _ => false

/-! ## Auxiliary definitions for the proofs -/

/-- Loop state after the body of an `XShapeSlopSelect` iteration, before its
termination check. -/
def xshapeDrawn {σ T F : Type} (M : Model σ T F) (fake : T) (inp : Input) (st : Loop σ T) :
    Loop σ T :=
  { st with memory := { M.update inp st.memory with
                        core := M.draw fake (M.update inp st.memory).core },
            iters := st.iters + 1,
            calls := st.calls ++ [.update inp, .draw fake] }

/-- Loop state after a termination check that had a flag to write to. -/
def checked {σ T : Type} (o : SlopOptions) (inp : Input) (st : Loop σ T) : Loop σ T :=
  { st with memory := { st.memory with running := st.memory.running && !cancelInput o inp },
            cancelled := some (cancelInput o inp),
            writes := st.writes ++ [cancelInput o inp] }

/-- Loop state after the render sequence of a `GLSlopSelect` iteration, before
`gl::GetError()` is looked at. -/
def glDrawn {σ T F Img : Type} (M : Model σ T F) (R : Renderer σ T Img) (camera : T)
    (shaders : List ShaderRef) (fr : Frame) (st : GLLoop σ T Img) : GLLoop σ T Img :=
  { st with memory := { M.update fr.input st.memory with
                        core := M.draw camera (M.update fr.input st.memory).core },
            iters := st.iters + 1,
            calls := st.calls ++ [.update fr.input, .draw camera],
            gl := renderFrame
              (R.shade ⟨fr.input.mouseX, fr.input.mouseY, st.elapsed + fr.input.dt⟩) R.blank
              ShaderRef.textured shaders
              (R.rectImage camera (M.update fr.input st.memory).core) st.gl,
            elapsed := st.elapsed + fr.input.dt }

/-- Loop state after a whole `GLSlopSelect` iteration that had a flag to write to. -/
def glNext {σ T F Img : Type} (M : Model σ T F) (R : Renderer σ T Img) (o : SlopOptions)
    (camera : T) (shaders : List ShaderRef) (fr : Frame) (st : GLLoop σ T Img) :
    GLLoop σ T Img :=
  { glDrawn M R camera shaders fr st with
    toLoop := checked o fr.input (glDrawn M R camera shaders fr st).toLoop }

/-- A model call without the transform handed to `draw`. -/
def Call.kind {T : Type} : Call T → Call Unit
  | .update inp => .update inp
  | .draw _ => .draw ()

/-- Two loop states that differ at most in the transforms of the logged draw calls. -/
def Agree {σ T : Type} (a b : Loop σ T) : Prop :=
  a.memory = b.memory ∧ a.cancelled = b.cancelled ∧ a.iters = b.iters ∧
  a.writes = b.writes ∧ a.calls.map Call.kind = b.calls.map Call.kind

/-! ## A concrete selection model for the examples -/

/-- Model state of the examples: where the drag began, the rectangle, the
window under the pointer. -/
structure Drag where
  origin : Option (Int × Int)
  rect : Vec4 Int
  window : Nat
  deriving DecidableEq, Repr

/-- A drag with button 1: pressing starts the rectangle, moving resizes it,
releasing ends the selection. `draw` leaves the model alone. -/
def dragModel : Model Drag Nat Int :=
  { update := fun inp m =>
      if inp.getButton 1 then
        match m.core.origin with
        | none =>
          { m with core := { m.core with origin := some (inp.mouseX, inp.mouseY),
                                         rect := ⟨inp.mouseX, inp.mouseY, 0, 0⟩ } }
        | some (ox, oy) =>
          { m with core := { m.core with rect := ⟨ox, oy, inp.mouseX - ox, inp.mouseY - oy⟩ } }
      else
        match m.core.origin with
        | none => m
        | some _ => { m with running := false }
    draw := fun _ s => s
    getRect := fun s => s.rect
    selectedWindow := fun s => s.window }

/-- The model before the drag. -/
def dragStart : SlopMemory Drag :=
  { running := true, core := { origin := none, rect := ⟨0, 0, 0, 0⟩, window := 0 } }

/-- An error-free frame. -/
def frameAt (keyDown : Bool) (buttons : List Nat) (x y : Int) : Frame :=
  { input := { anyKeyDown := keyDown, buttons := buttons, mouseX := x, mouseY := y, dt := 10 },
    glError := NO_ERROR }

/-- The frames of a drag from (10,10) to (110,60) up to the last move. -/
def dragMoves : List Frame :=
  [frameAt false [] 5 5, frameAt false [1] 10 10, frameAt false [1] 60 40,
   frameAt false [1] 110 60]

/-- The frame in which button 1 is released. -/
def dragRelease : Frame := frameAt false [] 110 60

/-- Images as the list of shader names applied, innermost last. -/
def listRenderer : Renderer Drag Nat (List String) :=
  { blank := []
    rectImage := fun _ _ => ["rect"]
    shade := fun _ sh img =>
      (match sh with
       | .textured => "textured"
       | .loaded _ name => name) :: img }

/-- A window whose camera is transform 1. -/
def listWindow : SlopWindow Nat (List String) :=
  { camera := 1, framebuffer := ⟨[], .textured⟩, back := [], shown := [] }

/-- A fresh ping-pong buffer. -/
def listPingpong : Framebuffer (List String) ShaderRef := ⟨[], .textured⟩

/-- A session with a compositor in which the window can be built. -/
def listEnv : Env Drag Nat (List String) :=
  { hasCompositor := true, newWindow := .ok listWindow,
    xshapeMemory := fun _ => dragStart, glMemory := fun _ => dragStart,
    newPingpong := listPingpong, fake := 0 }

/-- A model that stops at its first update and whose `draw` keeps the
transform it was given as the rectangle. -/
def echoModel : Model Nat Nat Nat :=
  { update := fun _ m => { m with running := false }
    draw := fun t _ => t
    getRect := fun s => ⟨s, s, s, s⟩
    selectedWindow := fun _ => 0 }

/-- Rendering that ignores everything. -/
def unitRenderer : Renderer Nat Nat Unit :=
  { blank := (), rectImage := fun _ _ => (), shade := fun _ _ _ => () }

/-- A window whose camera is transform 1, with unit images. -/
def unitWindow : SlopWindow Nat Unit :=
  { camera := 1, framebuffer := ⟨(), .textured⟩, back := (), shown := () }

/-! ## Lemmas on the effect pipeline -/

theorem swapBody_eq (shade : S → Img → Img) (blank : Img) (e0 e1 : S) (g : GLState Img S) :
    swapBody shade blank e0 e1 g =
      { g with
        primary := ⟨shade e1 (shade e0 g.primary.image), e0⟩
        pingpong := ⟨shade e0 g.primary.image, e1⟩
        bound := none
        passes := g.passes ++ [⟨e0, .primary, some .pingpong⟩, ⟨e1, .pingpong, some .primary⟩] } := by
  simp [swapBody, GLState.bind, GLState.unbind, GLState.clear, GLState.write,
    GLState.setShader, GLState.draw, GLState.buffer]

theorem singleBody_eq (shade : S → Img → Img) (blank : Img) (e : S) (g : GLState Img S) :
    singleBody shade blank e g =
      { g with
        primary := ⟨g.primary.image, e⟩
        pingpong := ⟨shade e g.primary.image, g.pingpong.shader⟩
        bound := none
        passes := g.passes ++ [⟨e, .primary, some .pingpong⟩] } := by
  simp [singleBody, GLState.bind, GLState.unbind, GLState.clear, GLState.write,
    GLState.setShader, GLState.draw, GLState.buffer]

theorem tailLoop_done (shade : S → Img → Img) (blank : Img) (shaders : List S) (fuel : Nat)
    (c : Chain Img S) (h : shaders.length ≤ c.i) : tailLoop shade blank shaders fuel c = c := by
  cases fuel with
  | zero => rfl
  | succ n => simp [tailLoop, Nat.not_lt.mpr h]

theorem loops_eq_chainSpec (shade : S → Img → Img) (blank : Img) (shaders : List S) :
    ∀ (fuel : Nat) (c : Chain Img S) (fuel2 : Nat),
      shaders.length ≤ c.i + 2 * fuel → (shaders.length - c.i) % 2 ≤ fuel2 →
      tailLoop shade blank shaders fuel2 (pairLoop shade blank shaders fuel c)
        = chainSpec shade blank (shaders.drop c.i) c := by
  intro fuel
  induction fuel with
  | zero =>
    intro c fuel2 h1 _
    have hd : shaders.drop c.i = [] := List.drop_eq_nil_of_le (by omega)
    rw [hd]
    simp only [pairLoop, chainSpec]
    exact tailLoop_done shade blank shaders fuel2 c (by omega)
  | succ n ih =>
    intro c fuel2 h1 h2
    by_cases hc : (c.i : Int) ≤ (shaders.length : Int) - 2
    · have hi : c.i + 1 < shaders.length := by omega
      have hd : shaders.drop c.i
          = shaders.get ⟨c.i, by omega⟩ :: shaders.get ⟨c.i + 1, hi⟩ :: shaders.drop (c.i + 2) := by
        rw [List.drop_eq_getElem_cons (by omega : c.i < shaders.length),
          List.drop_eq_getElem_cons hi]
        rfl
      rw [hd]
      simp only [pairLoop, hc, dite_true, chainSpec]
      exact ih _ fuel2 (by simp only []; omega) (by simp only []; omega)
    · simp only [pairLoop, hc, dite_false]
      by_cases hlt : c.i < shaders.length
      · have hN : shaders.length = c.i + 1 := by omega
        have hd : shaders.drop c.i = [shaders.get ⟨c.i, hlt⟩] := by
          rw [List.drop_eq_getElem_cons hlt, List.drop_eq_nil_of_le (by omega)]
          rfl
        rw [hd]
        obtain ⟨m, rfl⟩ : ∃ m, fuel2 = m + 1 := by
          refine ⟨fuel2 - 1, ?_⟩
          have : (shaders.length - c.i) % 2 = 1 := by rw [hN]; simp
          omega
        simp only [tailLoop, hlt, dite_true, chainSpec]
        exact tailLoop_done shade blank shaders m _ (by simp; omega)
      · have hd : shaders.drop c.i = [] := List.drop_eq_nil_of_le (by omega)
        rw [hd]
        simp only [chainSpec]
        exact tailLoop_done shade blank shaders fuel2 c (by omega)

theorem chainSpec_counters (shade : S → Img → Img) (blank : Img) :
    ∀ (l : List S) (c : Chain Img S),
      (chainSpec shade blank l c).i = c.i + l.length ∧
      (chainSpec shade blank l c).swaps = c.swaps + l.length / 2 ∧
      (chainSpec shade blank l c).singles = c.singles + l.length % 2
  | e0 :: e1 :: rest, c => by
    have ih := chainSpec_counters shade blank rest
      ⟨c.i + 2, c.swaps + 1, c.singles, swapBody shade blank e0 e1 c.gl⟩
    simp only [chainSpec, List.length_cons]
    obtain ⟨h1, h2, h3⟩ := ih
    simp only [] at h1 h2 h3
    refine ⟨by omega, by omega, by omega⟩
  | [e], c => by simp [chainSpec]
  | [], c => by simp [chainSpec]

theorem chainSpec_passes (shade : S → Img → Img) (blank : Img) :
    ∀ (l : List S) (c : Chain Img S), c.i % 2 = 0 →
      (chainSpec shade blank l c).gl.passes = c.gl.passes ++ expectedFrom c.i l
  | e0 :: e1 :: rest, c, h => by
    have ih := chainSpec_passes shade blank rest
      ⟨c.i + 2, c.swaps + 1, c.singles, swapBody shade blank e0 e1 c.gl⟩ (by simp only []; omega)
    have h1 : (c.i + 1) % 2 ≠ 0 := by omega
    rw [chainSpec, ih]
    simp [swapBody_eq, expectedFrom, List.enumFrom, passOf, h, h1, Nat.add_assoc]
  | [e], c, h => by
    simp [chainSpec, singleBody_eq, expectedFrom, List.enumFrom, passOf, h]
  | [], c, _ => by simp [chainSpec, expectedFrom]

theorem chainSpec_final (shade : S → Img → Img) (blank : Img) :
    ∀ (l : List S) (c : Chain Img S), l ≠ [] → c.i % 2 = 0 →
      let g := (chainSpec shade blank l c).gl
      let fb := g.buffer (presentSource (c.i + l.length))
      g.bound = none ∧
      shade fb.shader fb.image = l.foldl (fun img e => shade e img) c.gl.primary.image
  | [e0, e1], c, _, h => by
    have h2 : (c.i + 2) % 2 = 0 := by omega
    simp [chainSpec, swapBody_eq, presentSource, GLState.buffer, h2]
  | e0 :: e1 :: e2 :: rest, c, _, h => by
    have ih := chainSpec_final shade blank (e2 :: rest)
      ⟨c.i + 2, c.swaps + 1, c.singles, swapBody shade blank e0 e1 c.gl⟩ (by simp)
      (by simp only []; omega)
    have hl : c.i + (e0 :: e1 :: e2 :: rest).length = c.i + 2 + (e2 :: rest).length := by
      simp only [List.length_cons]; omega
    rw [chainSpec, hl]
    simpa [swapBody_eq] using ih
  | [e], c, _, h => by
    have h1 : (c.i + 1) % 2 = 1 := by omega
    simp [chainSpec, singleBody_eq, presentSource, GLState.buffer, h1]
  | [], _, h, _ => absurd rfl h

theorem effectChain_eq_chainSpec (shade : S → Img → Img) (blank : Img) (shaders : List S)
    (g : GLState Img S) :
    effectChain shade blank shaders g
      = chainSpec shade blank shaders
          { i := 0, swaps := 0, singles := 0, gl := { g with blend := true } } := by
  have h := loops_eq_chainSpec shade blank shaders shaders.length
    { i := 0, swaps := 0, singles := 0, gl := { g with blend := true } } shaders.length
    (by simp only []; omega) (by simp only []; omega)
  simpa [effectChain] using h

theorem prepare_eq (blank : Img) (textured : S) (rect : Img) (g : GLState Img S) :
    prepare blank textured rect g =
      { g with primary := ⟨rect, textured⟩, bound := none } := by
  simp [prepare, GLState.bind, GLState.unbind, GLState.clear, GLState.write, GLState.setShader]

theorem effectChain_bound (shade : S → Img → Img) (blank : Img) (shaders : List S)
    (g : GLState Img S) (hg : g.bound = none) :
    (effectChain shade blank shaders g).gl.bound = none := by
  rw [effectChain_eq_chainSpec]
  cases shaders with
  | nil => simpa [chainSpec] using hg
  | cons e es =>
    exact (chainSpec_final shade blank (e :: es)
      { i := 0, swaps := 0, singles := 0, gl := { g with blend := true } } (by simp) rfl).1

/-! ## Lemmas on the frame loops -/

section LoopLemmas

variable {σ T F Img : Type}

theorem terminationCheck_some (o : SlopOptions) (inp : Input) (st : Loop σ T) (b : Bool)
    (h : st.cancelled = some b) : terminationCheck o inp st = some (checked o inp st) := by
  obtain ⟨⟨r, c⟩, fl, it, cs, ws⟩ := st
  simp only at h
  subst h
  by_cases hc : cancelInput o inp = true
  · simp [terminationCheck, checked, hc]
  · simp only [Bool.not_eq_true] at hc
    simp [terminationCheck, checked, hc]

theorem terminationCheck_null_quiet (o : SlopOptions) (inp : Input) (st : Loop σ T)
    (h : st.cancelled = none) (hc : cancelInput o inp = false) :
    terminationCheck o inp st = none := by
  simp [terminationCheck, h, hc]

theorem xshapeLoop_stopped (M : Model σ T F) (o : SlopOptions) (fake : T) (xs : List Input)
    (st : Loop σ T) (h : st.memory.running = false) :
    xshapeLoop M o fake xs st = (st, .exited) := by
  cases xs <;> simp [xshapeLoop, h]

theorem xshapeLoop_cons (M : Model σ T F) (o : SlopOptions) (fake : T) (inp : Input)
    (rest : List Input) (st : Loop σ T) (b : Bool) (hr : st.memory.running = true)
    (h : st.cancelled = some b) :
    xshapeLoop M o fake (inp :: rest) st
      = xshapeLoop M o fake rest (checked o inp (xshapeDrawn M fake inp st)) := by
  have hc : (xshapeDrawn M fake inp st).cancelled = some b := h
  have := terminationCheck_some o inp (xshapeDrawn M fake inp st) b hc
  simp only [xshapeLoop, hr, if_true]
  simp only [xshapeDrawn] at this
  rw [this]
  rfl

theorem getLast?_cons_getD {α : Type} (a b : α) (l : List α) :
    ((a :: l).getLast?).getD b = (l.getLast?).getD a := by
  cases l with
  | nil => simp
  | cons x xs =>
    rw [List.getLast?_cons_cons, List.getLast?_eq_getLast (x :: xs) (by simp)]
    simp

theorem xshapeLoop_trace (M : Model σ T F) (o : SlopOptions) (fake : T) :
    ∀ (xs : List Input) (st : Loop σ T) (b : Bool), st.cancelled = some b →
      ∃ n, n ≤ xs.length ∧
        (xshapeLoop M o fake xs st).1.iters = st.iters + n ∧
        (xshapeLoop M o fake xs st).1.writes = st.writes ++ (xs.take n).map (cancelInput o) ∧
        (xshapeLoop M o fake xs st).1.cancelled
          = some ((((xs.take n).map (cancelInput o)).getLast?).getD b) ∧
        (∀ k inp, k + 1 < n → xs[k]? = some inp → cancelInput o inp = false) ∧
        (1 ≤ n → st.memory.running = true) ∧
        ((xshapeLoop M o fake xs st).2 = .exited ∨
          ((xshapeLoop M o fake xs st).2 = .pending ∧ n = xs.length)) := by
  intro xs
  induction xs with
  | nil =>
    intro st b h
    refine ⟨0, le_refl _, ?_, ?_, ?_, ?_, ?_, ?_⟩
    · simp [xshapeLoop]
    · simp [xshapeLoop]
    · simp [xshapeLoop, h]
    · intro k inp hk; omega
    · intro hk; omega
    · by_cases hr : st.memory.running = true <;> simp [xshapeLoop, hr]
  | cons inp rest ih =>
    intro st b h
    by_cases hr : st.memory.running = true
    · rw [xshapeLoop_cons M o fake inp rest st b hr h]
      obtain ⟨n, hn, hi, hw, hc, hk, h1, hs⟩ :=
        ih (checked o inp (xshapeDrawn M fake inp st)) (cancelInput o inp) rfl
      refine ⟨n + 1, by simp; omega, ?_, ?_, ?_, ?_, fun _ => hr, ?_⟩
      · rw [hi]; simp [checked, xshapeDrawn]; omega
      · rw [hw]; simp [checked, xshapeDrawn]
      · rw [hc]; simp only [List.take_succ_cons, List.map_cons, getLast?_cons_getD]
      · intro k x hlt hx
        cases k with
        | zero =>
          simp at hx
          subst hx
          have hrun := h1 (by omega)
          simp [checked] at hrun
          exact hrun.2
        | succ j =>
          simp at hx
          exact hk j x (by omega) hx
      · rcases hs with hs | ⟨hs, hl⟩
        · exact Or.inl hs
        · exact Or.inr ⟨hs, by simp [hl]⟩
    · simp only [Bool.not_eq_true] at hr
      rw [xshapeLoop_stopped M o fake _ st hr]
      refine ⟨0, by omega, by simp, by simp, by simp [h], ?_, ?_, Or.inl rfl⟩
      · intro k inp hk; omega
      · intro hk; omega

theorem glLoop_stopped (M : Model σ T F) (R : Renderer σ T Img) (o : SlopOptions) (camera : T)
    (shaders : List ShaderRef) (frames : List Frame) (st : GLLoop σ T Img)
    (h : st.memory.running = false) :
    glLoop M R o camera shaders frames st = (st, .exited) := by
  cases frames <;> simp [glLoop, h]

theorem glLoop_cons (M : Model σ T F) (R : Renderer σ T Img) (o : SlopOptions) (camera : T)
    (shaders : List ShaderRef) (fr : Frame) (rest : List Frame) (st : GLLoop σ T Img)
    (hr : st.memory.running = true) :
    glLoop M R o camera shaders (fr :: rest) st =
      if fr.glError != NO_ERROR then
        (glDrawn M R camera shaders fr st, .raised (glMessage fr.glError))
      else
        match terminationCheck o fr.input (glDrawn M R camera shaders fr st).toLoop with
        | some l2 =>
          glLoop M R o camera shaders rest { glDrawn M R camera shaders fr st with toLoop := l2 }
        | none => (glDrawn M R camera shaders fr st, .nullWrite) := by
  simp only [glLoop, hr, if_true]
  rfl

theorem terminationCheck_iters (o : SlopOptions) (inp : Input) (st l2 : Loop σ T)
    (h : terminationCheck o inp st = some l2) :
    l2.iters = st.iters ∧ l2.calls = st.calls ∧ l2.memory.core = st.memory.core ∧
    (l2.cancelled = none ↔ st.cancelled = none) ∧
    l2.memory.running = (st.memory.running && !cancelInput o inp) := by
  unfold terminationCheck at h
  by_cases hc : cancelInput o inp = true
  · cases hf : st.cancelled with
    | none =>
      simp [hc, hf] at h
      subst h
      simp [hf, hc]
    | some b =>
      simp [hc, hf] at h
      subst h
      simp [hf, hc]
  · simp only [Bool.not_eq_true] at hc
    cases hf : st.cancelled with
    | none => simp [hc, hf] at h
    | some b =>
      simp [hc, hf] at h
      subst h
      simp [hf, hc]

/-- How the accelerated loop can stop, in terms of `n`, the number of
iterations that got past their termination check. -/
theorem glLoop_stop (M : Model σ T F) (R : Renderer σ T Img) (o : SlopOptions) (camera : T)
    (shaders : List ShaderRef) :
    ∀ (frames : List Frame) (st : GLLoop σ T Img),
      ∃ n, n ≤ frames.length ∧
        (∀ k fr, k < n → frames[k]? = some fr → fr.glError = NO_ERROR) ∧
        (((glLoop M R o camera shaders frames st).2 = .exited ∧
            (glLoop M R o camera shaders frames st).1.iters = st.iters + n ∧
            (glLoop M R o camera shaders frames st).1.memory.running = false) ∨
         ((glLoop M R o camera shaders frames st).2 = .pending ∧ n = frames.length ∧
            (glLoop M R o camera shaders frames st).1.iters = st.iters + n ∧
            (glLoop M R o camera shaders frames st).1.memory.running = true) ∨
         (∃ fr, frames[n]? = some fr ∧ fr.glError ≠ NO_ERROR ∧
            (glLoop M R o camera shaders frames st).2 = .raised (glMessage fr.glError) ∧
            (glLoop M R o camera shaders frames st).1.iters = st.iters + n + 1) ∨
         (∃ fr, frames[n]? = some fr ∧ fr.glError = NO_ERROR ∧
            cancelInput o fr.input = false ∧ st.cancelled = none ∧
            (glLoop M R o camera shaders frames st).2 = .nullWrite ∧
            (glLoop M R o camera shaders frames st).1.iters = st.iters + n + 1)) := by
  intro frames
  induction frames with
  | nil =>
    intro st
    refine ⟨0, le_refl _, fun k fr hk => by omega, ?_⟩
    by_cases hr : st.memory.running = true
    · right; left; simp [glLoop, hr]
    · left; simp [glLoop, hr]
  | cons fr rest ih =>
    intro st
    by_cases hr : st.memory.running = true
    · rw [glLoop_cons M R o camera shaders fr rest st hr]
      by_cases he : fr.glError = NO_ERROR
      · have hne : (fr.glError != NO_ERROR) = false := by simp [he]
        simp only [hne, Bool.false_eq_true, if_false]
        cases htc : terminationCheck o fr.input (glDrawn M R camera shaders fr st).toLoop with
        | none =>
          refine ⟨0, by omega, fun k fr hk => by omega, ?_⟩
          right; right; right
          refine ⟨fr, by simp, he, ?_, ?_, rfl, by simp [glDrawn]⟩
          · by_cases hc : cancelInput o fr.input = true
            · cases hf : st.cancelled <;> simp [terminationCheck, hc, glDrawn, hf] at htc
            · simpa using hc
          · cases hf : st.cancelled with
            | none => rfl
            | some b =>
              rw [terminationCheck_some o fr.input _ b (by simp [glDrawn, hf])] at htc
              simp at htc
        | some l2 =>
          obtain ⟨hit, -, -, hnone, -⟩ := terminationCheck_iters o fr.input _ l2 htc
          obtain ⟨n, hn, herr, hcase⟩ :=
            ih { glDrawn M R camera shaders fr st with toLoop := l2 }
          simp only [hit] at hcase
          have hi1 : (glDrawn M R camera shaders fr st).iters = st.iters + 1 := rfl
          refine ⟨n + 1, by simp; omega, ?_, ?_⟩
          · intro k x hk hx
            cases k with
            | zero => simp at hx; subst hx; exact he
            | succ j => simp at hx; exact herr j x (by omega) hx
          · rcases hcase with ⟨h1, h2, h3⟩ | ⟨h1, h2, h3, h4⟩ | ⟨x, h1, h2, h3, h4⟩ |
              ⟨x, h1, h2, h3, h4, h5, h6⟩
            · left; exact ⟨h1, by rw [h2, hi1]; omega, h3⟩
            · right; left; exact ⟨h1, by simp [h2], by rw [h3, hi1]; omega, h4⟩
            · right; right; left
              exact ⟨x, by simpa using h1, h2, h3, by rw [h4, hi1]; omega⟩
            · right; right; right
              refine ⟨x, by simpa using h1, h2, h3, ?_, h5, by rw [h6, hi1]; omega⟩
              have : l2.cancelled = none := h4
              exact hnone.mp this
      · have hne : (fr.glError != NO_ERROR) = true := by simp [he]
        simp only [hne, if_true]
        refine ⟨0, by omega, fun k fr hk => by omega, ?_⟩
        right; right; left
        exact ⟨fr, by simp, he, rfl, by simp [glDrawn]⟩
    · simp only [Bool.not_eq_true] at hr
      rw [glLoop_stopped M R o camera shaders _ st hr]
      exact ⟨0, by omega, fun k fr hk => by omega, Or.inl ⟨rfl, rfl, hr⟩⟩

theorem glLoop_cons_flag (M : Model σ T F) (R : Renderer σ T Img) (o : SlopOptions)
    (camera : T) (shaders : List ShaderRef) (fr : Frame) (rest : List Frame)
    (st : GLLoop σ T Img) (b : Bool) (hr : st.memory.running = true)
    (h : st.cancelled = some b) (he : fr.glError = NO_ERROR) :
    glLoop M R o camera shaders (fr :: rest) st =
      glLoop M R o camera shaders rest (glNext M R o camera shaders fr st) := by
  rw [glLoop_cons M R o camera shaders fr rest st hr]
  have hne : (fr.glError != NO_ERROR) = false := by simp [he]
  simp only [hne, Bool.false_eq_true, if_false]
  rw [terminationCheck_some o fr.input _ b (by simp [glDrawn, h])]
  rfl

theorem glLoop_cons_error (M : Model σ T F) (R : Renderer σ T Img) (o : SlopOptions)
    (camera : T) (shaders : List ShaderRef) (fr : Frame) (rest : List Frame)
    (st : GLLoop σ T Img) (hr : st.memory.running = true) (he : fr.glError ≠ NO_ERROR) :
    glLoop M R o camera shaders (fr :: rest) st =
      (glDrawn M R camera shaders fr st, .raised (glMessage fr.glError)) := by
  rw [glLoop_cons M R o camera shaders fr rest st hr]
  have hne : (fr.glError != NO_ERROR) = true := by simp [he]
  simp only [hne, if_true]

/-- With a flag provided: what the accelerated loop wrote to it, in terms of
`n`, the number of iterations that got past their termination check. -/
theorem glLoop_trace (M : Model σ T F) (R : Renderer σ T Img) (o : SlopOptions) (camera : T)
    (shaders : List ShaderRef) :
    ∀ (frames : List Frame) (st : GLLoop σ T Img) (b : Bool), st.cancelled = some b →
      ∃ n, n ≤ frames.length ∧
        (glLoop M R o camera shaders frames st).1.writes
          = st.writes ++ (frames.take n).map (fun fr => cancelInput o fr.input) ∧
        (glLoop M R o camera shaders frames st).1.cancelled
          = some ((((frames.take n).map (fun fr => cancelInput o fr.input)).getLast?).getD b) ∧
        (∀ k fr, st.iters + k + 1 < (glLoop M R o camera shaders frames st).1.iters →
          frames[k]? = some fr → cancelInput o fr.input = false) ∧
        (st.iters < (glLoop M R o camera shaders frames st).1.iters →
          st.memory.running = true) ∧
        (((∀ w, (glLoop M R o camera shaders frames st).2 ≠ .raised w) ∧
            (glLoop M R o camera shaders frames st).1.iters = st.iters + n) ∨
         ((∃ w, (glLoop M R o camera shaders frames st).2 = .raised w) ∧
            (glLoop M R o camera shaders frames st).1.iters = st.iters + n + 1)) := by
  intro frames
  induction frames with
  | nil =>
    intro st b h
    refine ⟨0, le_refl _, by simp [glLoop], by simp [glLoop, h], ?_, ?_, ?_⟩
    · intro k fr hk; simp only [glLoop] at hk; omega
    · intro hk; simp only [glLoop] at hk; omega
    · left
      refine ⟨?_, by simp [glLoop]⟩
      intro w
      by_cases hr : st.memory.running = true <;> simp [glLoop, hr]
  | cons fr rest ih =>
    intro st b h
    by_cases hr : st.memory.running = true
    · by_cases he : fr.glError = NO_ERROR
      · rw [glLoop_cons_flag M R o camera shaders fr rest st b hr h he]
        obtain ⟨n, hn, hw, hc, hk, h1, hs⟩ :=
          ih (glNext M R o camera shaders fr st) (cancelInput o fr.input) rfl
        have hi1 : (glNext M R o camera shaders fr st).iters = st.iters + 1 := rfl
        rw [hi1] at hk h1 hs
        refine ⟨n + 1, by simp; omega, ?_, ?_, ?_, fun _ => hr, ?_⟩
        · rw [hw]; simp [glNext, checked, glDrawn]
        · rw [hc]; simp only [List.take_succ_cons, List.map_cons, getLast?_cons_getD]
        · intro k x hlt hx
          cases k with
          | zero =>
            simp at hx
            subst hx
            have hrun := h1 (by omega)
            simp [glNext, checked] at hrun
            exact hrun.2
          | succ j =>
            simp at hx
            exact hk j x (by omega) hx
        · rcases hs with ⟨hs, hi⟩ | ⟨hs, hi⟩
          · exact Or.inl ⟨hs, by rw [hi]; omega⟩
          · exact Or.inr ⟨hs, by rw [hi]; omega⟩
      · rw [glLoop_cons_error M R o camera shaders fr rest st hr he]
        refine ⟨0, by omega, by simp [glDrawn], by simp [glDrawn, h], ?_, fun _ => hr, ?_⟩
        · intro k x hlt; simp [glDrawn] at hlt
        · right; exact ⟨⟨_, rfl⟩, by simp [glDrawn]⟩
    · simp only [Bool.not_eq_true] at hr
      rw [glLoop_stopped M R o camera shaders _ st hr]
      refine ⟨0, by omega, by simp, by simp [h], ?_, ?_, Or.inl ⟨by simp, by simp⟩⟩
      · intro k fr hk; simp only [] at hk; omega
      · intro hk; simp only [] at hk; omega

theorem xshapeLoop_append (M : Model σ T F) (o : SlopOptions) (fake : T) :
    ∀ (xs ys : List Input) (st : Loop σ T),
      (xshapeLoop M o fake xs st).2 = .pending →
      xshapeLoop M o fake (xs ++ ys) st = xshapeLoop M o fake ys (xshapeLoop M o fake xs st).1 := by
  intro xs
  induction xs with
  | nil => intro ys st _; simp [xshapeLoop]
  | cons inp rest ih =>
    intro ys st h
    by_cases hr : st.memory.running = true
    · simp only [xshapeLoop, hr, if_true, List.cons_append] at h ⊢
      cases htc : terminationCheck o inp
          { st with memory := { M.update inp st.memory with
                                core := M.draw fake (M.update inp st.memory).core },
                    iters := st.iters + 1,
                    calls := st.calls ++ [.update inp, .draw fake] } with
      | none => simp [htc] at h
      | some st2 =>
        simp only [htc] at h ⊢
        exact ih ys st2 h
    · simp only [Bool.not_eq_true] at hr
      rw [xshapeLoop_stopped M o fake _ st hr] at h
      simp at h

theorem glLoop_append (M : Model σ T F) (R : Renderer σ T Img) (o : SlopOptions) (camera : T)
    (shaders : List ShaderRef) :
    ∀ (xs ys : List Frame) (st : GLLoop σ T Img),
      (glLoop M R o camera shaders xs st).2 = .pending →
      glLoop M R o camera shaders (xs ++ ys) st
        = glLoop M R o camera shaders ys (glLoop M R o camera shaders xs st).1 := by
  intro xs
  induction xs with
  | nil => intro ys st _; simp [glLoop]
  | cons fr rest ih =>
    intro ys st h
    by_cases hr : st.memory.running = true
    · rw [List.cons_append, glLoop_cons M R o camera shaders fr _ st hr]
      rw [glLoop_cons M R o camera shaders fr _ st hr] at h ⊢
      by_cases he : (fr.glError != NO_ERROR) = true
      · simp [he] at h
      · simp only [he, if_false] at h ⊢
        cases htc : terminationCheck o fr.input (glDrawn M R camera shaders fr st).toLoop with
        | none => simp [htc] at h
        | some l2 =>
          simp only [htc] at h ⊢
          exact ih ys _ h
    · simp only [Bool.not_eq_true] at hr
      rw [glLoop_stopped M R o camera shaders _ st hr] at h
      simp at h

theorem terminationCheck_agree (o : SlopOptions) (inp : Input) (a b : Loop σ T)
    (h : Agree a b) :
    (terminationCheck o inp a = none ∧ terminationCheck o inp b = none) ∨
    (∃ a2 b2, terminationCheck o inp a = some a2 ∧ terminationCheck o inp b = some b2 ∧
      Agree a2 b2) := by
  obtain ⟨hm, hc, hi, hw, hk⟩ := h
  unfold terminationCheck
  by_cases hci : cancelInput o inp = true
  · right
    cases hf : b.cancelled with
    | none =>
      rw [hf] at hc
      simp only [hci, if_true, hc]
      exact ⟨_, _, rfl, rfl, by simp [hm], rfl, hi, hw, hk⟩
    | some v =>
      rw [hf] at hc
      simp only [hci, if_true, hc]
      exact ⟨_, _, rfl, rfl, by simp [hm], rfl, hi, by simp [hw], hk⟩
  · simp only [Bool.not_eq_true] at hci
    cases hf : b.cancelled with
    | none =>
      rw [hf] at hc
      left
      simp [hci, hc]
    | some v =>
      rw [hf] at hc
      right
      simp only [hci, Bool.false_eq_true, if_false, hc]
      exact ⟨_, _, rfl, rfl, hm, rfl, hi, by simp [hw], hk⟩

theorem loops_agree (M : Model σ T F) (R : Renderer σ T Img) (o : SlopOptions)
    (fake camera : T) (shaders : List ShaderRef)
    (hdraw : ∀ s, M.draw fake s = M.draw camera s) :
    ∀ (frames : List Frame) (sx : Loop σ T) (sg : GLLoop σ T Img),
      Agree sx sg.toLoop →
      (∀ w, (glLoop M R o camera shaders frames sg).2 ≠ .raised w) →
      Agree (xshapeLoop M o fake (frames.map Frame.input) sx).1
          (glLoop M R o camera shaders frames sg).1.toLoop ∧
        (xshapeLoop M o fake (frames.map Frame.input) sx).2
          = (glLoop M R o camera shaders frames sg).2 := by
  intro frames
  induction frames with
  | nil =>
    intro sx sg h _
    have hm : sx.memory = sg.memory := h.1
    simp [xshapeLoop, glLoop, hm, h]
  | cons fr rest ih =>
    intro sx sg h hnr
    have hm : sx.memory = sg.memory := h.1
    by_cases hr : sg.memory.running = true
    · rw [glLoop_cons M R o camera shaders fr rest sg hr] at hnr ⊢
      by_cases he : (fr.glError != NO_ERROR) = true
      · simp [he] at hnr
      · simp only [he, if_false] at hnr ⊢
        have hag : Agree
            { sx with memory := { M.update fr.input sx.memory with
                                  core := M.draw fake (M.update fr.input sx.memory).core },
                      iters := sx.iters + 1,
                      calls := sx.calls ++ [.update fr.input, .draw fake] }
            (glDrawn M R camera shaders fr sg).toLoop := by
          obtain ⟨h1, h2, h3, h4, h5⟩ := h
          refine ⟨?_, h2, ?_, h4, ?_⟩
          · simp [glDrawn, h1, hdraw]
          · simp [glDrawn, h3]
          · simp [glDrawn, h5, Call.kind]
        simp only [List.map_cons, xshapeLoop, hm, hr, if_true]
        rw [← hm]
        rcases terminationCheck_agree o fr.input _ _ hag with ⟨hx, hg⟩ | ⟨a2, b2, hx, hg, hab⟩
        · rw [hx, hg]
          exact ⟨hag, rfl⟩
        · rw [hg] at hnr
          rw [hx, hg]
          exact ih a2 { glDrawn M R camera shaders fr sg with toLoop := b2 } hab hnr
    · simp only [Bool.not_eq_true] at hr
      rw [glLoop_stopped M R o camera shaders _ sg hr]
      rw [xshapeLoop_stopped M o fake _ sx (by rw [hm]; exact hr)]
      exact ⟨h, rfl⟩

end LoopLemmas


/-! ## The claims about the effect pipeline -/

theorem effectChain_index (shade : S → Img → Img) (blank : Img) (shaders : List S)
    (g : GLState Img S) : (effectChain shade blank shaders g).i = shaders.length := by
  rw [effectChain_eq_chainSpec]
  simpa using (chainSpec_counters shade blank shaders
    { i := 0, swaps := 0, singles := 0, gl := { g with blend := true } }).1

/-- Claim C1. In one frame the two loops of `GLSlopSelect` make exactly one
pass per effect, in list order: the pass for position `k` uses `shaders[k]`,
reads the primary surface and writes the scratch buffer when `k` is even, and
reads the scratch buffer and writes the primary surface when `k` is odd. The
first loop makes `N / 2` iterations (swaps), the second makes `N % 2`, that is
one trailing pass exactly when `N` is odd, and `i` ends at `N`. This holds for
every list, in particular for `N ≥ 1`. -/
theorem effectChain_passes_in_order (shade : S → Img → Img) (blank : Img) (shaders : List S)
    (g : GLState Img S) :
    (effectChain shade blank shaders g).gl.passes = g.passes ++ expectedPasses shaders ∧
    (expectedPasses shaders).length = shaders.length ∧
    (∀ (k : Nat) (hk : k < shaders.length),
      (expectedPasses shaders)[k]? =
        some { effect := shaders.get ⟨k, hk⟩,
               src := if k % 2 = 0 then Buf.primary else Buf.pingpong,
               dst := some (if k % 2 = 0 then Buf.pingpong else Buf.primary) }) ∧
    (effectChain shade blank shaders g).swaps = shaders.length / 2 ∧
    (effectChain shade blank shaders g).singles = shaders.length % 2 ∧
    ((effectChain shade blank shaders g).singles = 1 ↔ shaders.length % 2 = 1) ∧
    (effectChain shade blank shaders g).i = shaders.length := by
  rw [effectChain_eq_chainSpec]
  obtain ⟨h1, h2, h3⟩ := chainSpec_counters shade blank shaders
    { i := 0, swaps := 0, singles := 0, gl := { g with blend := true } }
  have hp := chainSpec_passes shade blank shaders
    { i := 0, swaps := 0, singles := 0, gl := { g with blend := true } } rfl
  simp only [Nat.zero_add] at h1 h2 h3
  refine ⟨?_, ?_, ?_, h2, h3, ?_, h1⟩
  · rw [hp]; rfl
  · simp [expectedPasses]
  · intro k hk
    simp [expectedPasses, passOf, List.getElem?_eq_getElem hk]
  · rw [h3]

/-- Claim C2, amended. The last draw of a frame goes to the screen and reads
the primary surface when the number of effects is odd and the scratch buffer
when it is even. -/
theorem present_reads_by_effect_parity (shade : S → Img → Img) (blank : Img) (textured : S)
    (shaders : List S) (rect : Img) (g : GLState Img S) :
    (renderFrame shade blank textured shaders rect g).passes.getLast?.map
        (fun p => (p.src, p.dst))
      = some (if shaders.length % 2 = 1 then Buf.primary else Buf.pingpong, none) := by
  have hb := effectChain_bound shade blank shaders (prepare blank textured rect g)
    (by simp [prepare_eq])
  have hi := effectChain_index shade blank shaders (prepare blank textured rect g)
  simp only [renderFrame, GLState.display, present, GLState.draw, GLState.write, hb, hi,
    List.getLast?_append, List.getLast?_singleton, presentSource, Option.map_some']
  by_cases h : shaders.length % 2 = 1
  · simp [h]
  · have h0 : shaders.length % 2 = 0 := by omega
    simp [h0]

/-- Claim C2 as stated fails: it is not true that for every effect list of
length at least 1 the buffer read by the final draw is the primary surface
when `N / 2` is even and the scratch buffer otherwise (three effects: one
swap, yet the primary surface is drawn). -/
theorem present_not_by_swap_parity :
    ¬ ∀ shaders : List Nat, 1 ≤ shaders.length →
      ((renderFrame (fun e img => e :: img) [] 0 shaders [] (GLState.init [] 0)).passes.getLast?.map
          Pass.src)
        = some (if (shaders.length / 2) % 2 = 0 then Buf.primary else Buf.pingpong) := by
  intro h
  have h3 := h [1, 2, 3] (by decide)
  revert h3
  decide

/-- Claim C3. For a non-empty effect list the image on screen after a frame is
the rectangle image with every effect applied once, in list order. -/
theorem frame_shows_composition (shade : S → Img → Img) (blank : Img) (textured : S)
    (shaders : List S) (rect : Img) (g : GLState Img S) (hN : 1 ≤ shaders.length) :
    (renderFrame shade blank textured shaders rect g).shown
      = shaders.foldl (fun img e => shade e img) rect := by
  have hne : shaders ≠ [] := by
    intro h; rw [h] at hN; simp at hN
  have hf := chainSpec_final shade blank shaders
    { i := 0, swaps := 0, singles := 0,
      gl := { prepare blank textured rect g with blend := true } } hne rfl
  simp only [Nat.zero_add] at hf
  obtain ⟨hb, himg⟩ := hf
  have hi := chainSpec_counters shade blank shaders
    { i := 0, swaps := 0, singles := 0,
      gl := { prepare blank textured rect g with blend := true } }
  simp only [renderFrame, GLState.display, present, GLState.draw, GLState.write,
    effectChain_eq_chainSpec, hb, hi.1, Nat.zero_add]
  rw [← (by simp [prepare_eq] : (prepare blank textured rect g).primary.image = rect)]
  rw [← himg]
  rfl

/-- Three effects on the rectangle image `[7]`. -/
theorem frame_shows_composition_witness :
    1 ≤ [1, 2, 3].length ∧
    (renderFrame (fun e img => e :: img) [] 0 [1, 2, 3] [7] (GLState.init [] 0)).shown
      = [3, 2, 1, 7] :=
  ⟨by decide, frame_shows_composition (fun e img => e :: img) [] 0 [1, 2, 3] [7]
    (GLState.init [] 0) (by decide)⟩

/-! ## The claims about the frame loops -/

section LoopClaims

variable {σ T F Img : Type}

theorem XShapeSlopSelect_loop (M : Model σ T F) (m0 : SlopMemory σ) (fake : T)
    (o : SlopOptions) (c : Option Bool) (inputs : List Input) :
    (XShapeSlopSelect M m0 fake o c inputs).loop
      = (xshapeLoop M o fake inputs (Loop.start m0 c)).1 := rfl

theorem XShapeSlopSelect_outcome (M : Model σ T F) (m0 : SlopMemory σ) (fake : T)
    (o : SlopOptions) (c : Option Bool) (inputs : List Input) :
    (XShapeSlopSelect M m0 fake o c inputs).outcome
      = outcomeOf M (xshapeLoop M o fake inputs (Loop.start m0 c)).1.memory
          (xshapeLoop M o fake inputs (Loop.start m0 c)).2 := rfl

theorem GLSlopSelect_loop (M : Model σ T F) (R : Renderer σ T Img) (m0 : SlopMemory σ)
    (pingpong : Framebuffer Img ShaderRef) (o : SlopOptions) (c : Option Bool)
    (window : SlopWindow T Img) (frames : List Frame) :
    (GLSlopSelect M R m0 pingpong o c window frames).loop
      = (glLoop M R o window.camera (buildShaders 0 o.shaders) frames
          (glStart m0 c window pingpong)).1.toLoop := rfl

theorem GLSlopSelect_outcome (M : Model σ T F) (R : Renderer σ T Img) (m0 : SlopMemory σ)
    (pingpong : Framebuffer Img ShaderRef) (o : SlopOptions) (c : Option Bool)
    (window : SlopWindow T Img) (frames : List Frame) :
    (GLSlopSelect M R m0 pingpong o c window frames).outcome
      = outcomeOf M
          (glLoop M R o window.camera (buildShaders 0 o.shaders) frames
            (glStart m0 c window pingpong)).1.memory
          (glLoop M R o window.camera (buildShaders 0 o.shaders) frames
            (glStart m0 c window pingpong)).2 := rfl

theorem outcomeOf_isRaised (M : Model σ T F) (m : SlopMemory σ) (s : Stop) :
    (outcomeOf M m s).isRaised = true ↔ ∃ w, s = .raised w := by
  cases s <;> simp [outcomeOf, Outcome.isRaised]

theorem getLast?_take_map {α β : Type} (f : α → β) (xs : List α) (n : Nat) (b : β)
    (h1 : 1 ≤ n) (hn : n ≤ xs.length) :
    some ((((xs.take n).map f).getLast?).getD b) = (xs[n - 1]?).map f := by
  have hlen : ((xs.take n).map f).length = n := by simp [hn]
  have hlt : n - 1 < xs.length := by omega
  rw [List.getLast?_eq_getElem?, hlen]
  simp [List.getElem?_take, show n - 1 < n by omega, List.getElem?_eq_getElem hlt]

/-- Claim C4, amended. With a flag provided, every iteration that reaches its
termination check writes to the flag the value of
`(keyboard polling enabled AND any key down) OR button 3 held` on its own
snapshot: in `XShapeSlopSelect` that is every iteration, in `GLSlopSelect`
every iteration except one that throws. So once one such iteration has been
made the flag holds the evaluation of the last of them, and an iteration whose
evaluation is true is the last iteration of the loop. -/
theorem flag_follows_termination_check (M : Model σ T F) (R : Renderer σ T Img)
    (m0 : SlopMemory σ) (pingpong : Framebuffer Img ShaderRef) (o : SlopOptions) (b : Bool)
    (window : SlopWindow T Img) (fake : T) (inputs : List Input) (frames : List Frame) :
    ((XShapeSlopSelect M m0 fake o (some b) inputs).loop.iters ≤ inputs.length ∧
      (XShapeSlopSelect M m0 fake o (some b) inputs).loop.writes
        = (inputs.take (XShapeSlopSelect M m0 fake o (some b) inputs).loop.iters).map
            (cancelInput o) ∧
      (1 ≤ (XShapeSlopSelect M m0 fake o (some b) inputs).loop.iters →
        (XShapeSlopSelect M m0 fake o (some b) inputs).loop.cancelled
          = (inputs[(XShapeSlopSelect M m0 fake o (some b) inputs).loop.iters - 1]?).map
              (cancelInput o)) ∧
      (∀ k inp, k < (XShapeSlopSelect M m0 fake o (some b) inputs).loop.iters →
        inputs[k]? = some inp → cancelInput o inp = true →
        (XShapeSlopSelect M m0 fake o (some b) inputs).loop.iters = k + 1)) ∧
    (∀ n, n = (if (GLSlopSelect M R m0 pingpong o (some b) window frames).outcome.isRaised
               then (GLSlopSelect M R m0 pingpong o (some b) window frames).loop.iters - 1
               else (GLSlopSelect M R m0 pingpong o (some b) window frames).loop.iters) →
      (GLSlopSelect M R m0 pingpong o (some b) window frames).loop.iters ≤ frames.length ∧
      (GLSlopSelect M R m0 pingpong o (some b) window frames).loop.writes
        = (frames.take n).map (fun fr => cancelInput o fr.input) ∧
      (1 ≤ n →
        (GLSlopSelect M R m0 pingpong o (some b) window frames).loop.cancelled
          = (frames[n - 1]?).map (fun fr => cancelInput o fr.input)) ∧
      (∀ k fr, k < (GLSlopSelect M R m0 pingpong o (some b) window frames).loop.iters →
        frames[k]? = some fr → cancelInput o fr.input = true →
        (GLSlopSelect M R m0 pingpong o (some b) window frames).loop.iters = k + 1)) := by
  constructor
  · obtain ⟨n, hn, hi, hw, hc, hk, -, -⟩ :=
      xshapeLoop_trace M o fake inputs (Loop.start m0 (some b)) b rfl
    have h0 : (Loop.start m0 (some b) : Loop σ T).iters = 0 := rfl
    have hw0 : (Loop.start m0 (some b) : Loop σ T).writes = [] := rfl
    rw [h0, Nat.zero_add] at hi
    rw [hw0, List.nil_append] at hw
    rw [XShapeSlopSelect_loop, hi]
    refine ⟨hn, hw, ?_, ?_⟩
    · intro h1
      rw [hc]
      exact getLast?_take_map (cancelInput o) inputs n b h1 hn
    · intro k inp hlt hx hcan
      by_contra hne
      have := hk k inp (by omega) hx
      rw [this] at hcan
      exact Bool.false_ne_true hcan
  · intro n hn
    obtain ⟨c, hc, hw, hcl, hk, -, hs⟩ :=
      glLoop_trace M R o window.camera (buildShaders 0 o.shaders) frames
        (glStart m0 (some b) window pingpong) b rfl
    obtain ⟨c2, hc2, -, hstop⟩ :=
      glLoop_stop M R o window.camera (buildShaders 0 o.shaders) frames
        (glStart m0 (some b) window pingpong)
    have h0 : (glStart m0 (some b) window pingpong : GLLoop σ T Img).iters = 0 := rfl
    have hw0 : (glStart m0 (some b) window pingpong : GLLoop σ T Img).writes = [] := rfl
    rw [h0] at hk hs hstop
    rw [hw0, List.nil_append] at hw
    simp only [Nat.zero_add] at hk hs hstop
    rw [GLSlopSelect_loop, GLSlopSelect_outcome] at hn
    rw [GLSlopSelect_loop]
    have hnc : n = c := by
      rw [hn]
      rcases hs with ⟨hnr, hi⟩ | ⟨hr, hi⟩
      · have : (outcomeOf M
            (glLoop M R o window.camera (buildShaders 0 o.shaders) frames
              (glStart m0 (some b) window pingpong)).1.memory
            (glLoop M R o window.camera (buildShaders 0 o.shaders) frames
              (glStart m0 (some b) window pingpong)).2).isRaised = false := by
          rw [Bool.eq_false_iff]
          intro h
          obtain ⟨w, hw⟩ := (outcomeOf_isRaised M _ _).mp h
          exact hnr w hw
        rw [this]
        simpa using hi
      · rw [(outcomeOf_isRaised M _ _).mpr hr]
        simp only [if_true, hi]
        omega
    subst hnc
    refine ⟨?_, hw, ?_, ?_⟩
    · rcases hstop with ⟨-, h2, -⟩ | ⟨-, -, h3, -⟩ | ⟨x, h1, -, -, h4⟩ | ⟨x, h1, -, -, -, -, h6⟩
      · omega
      · omega
      · have := (List.getElem?_eq_some_iff.mp h1).1
        omega
      · have := (List.getElem?_eq_some_iff.mp h1).1
        omega
    · intro h1
      rw [hcl]
      exact getLast?_take_map (fun fr => cancelInput o fr.input) frames _ b h1 hc
    · intro k fr hlt hx hcan
      by_contra hne
      have := hk k fr (by omega) hx
      rw [this] at hcan
      exact Bool.false_ne_true hcan

/-- Claim C4 as stated fails on the accelerated backend: a frame with a key
down whose render sequence surfaces `INVALID_OPERATION` is an iteration of the
loop, its evaluation is true, and the flag (false before) is still false when
the run ends. -/
theorem flag_stale_when_frame_raises :
    (GLSlopSelect dragModel listRenderer dragStart listPingpong SlopOptions.defaults
        (some false) listWindow [{ frameAt true [] 0 0 with glError := 0x0502 }]).loop.iters = 1 ∧
    cancelInput SlopOptions.defaults (frameAt true [] 0 0).input = true ∧
    (GLSlopSelect dragModel listRenderer dragStart listPingpong SlopOptions.defaults
        (some false) listWindow
        [{ frameAt true [] 0 0 with glError := 0x0502 }]).loop.cancelled = some false ∧
    (GLSlopSelect dragModel listRenderer dragStart listPingpong SlopOptions.defaults
        (some false) listWindow [{ frameAt true [] 0 0 with glError := 0x0502 }]).outcome
      = .raised "OpenGL threw an error: INVALID_OPERATION" := by
  refine ⟨by decide, by decide, by decide, by decide⟩

theorem outcomeOf_pending (M : Model σ T F) (m : SlopMemory σ) (s : Stop) :
    outcomeOf M m s = .pending ↔ s = .pending := by
  cases s <;> simp [outcomeOf]

theorem xshapeLoop_pending_running (M : Model σ T F) (o : SlopOptions) (fake : T) :
    ∀ (xs : List Input) (st : Loop σ T),
      (xshapeLoop M o fake xs st).2 = .pending →
      (xshapeLoop M o fake xs st).1.memory.running = true := by
  intro xs
  induction xs with
  | nil =>
    intro st h
    by_cases hr : st.memory.running = true
    · simpa [xshapeLoop] using hr
    · simp [xshapeLoop, hr] at h
  | cons inp rest ih =>
    intro st h
    by_cases hr : st.memory.running = true
    · simp only [xshapeLoop, hr, if_true] at h ⊢
      cases htc : terminationCheck o inp
          { st with memory := { M.update inp st.memory with
                                core := M.draw fake (M.update inp st.memory).core },
                    iters := st.iters + 1,
                    calls := st.calls ++ [.update inp, .draw fake] } with
      | none => simp [htc] at h
      | some st2 =>
        simp only [htc] at h ⊢
        exact ih st2 h
    · simp only [Bool.not_eq_true] at hr
      rw [xshapeLoop_stopped M o fake _ st hr] at h
      simp at h

theorem toInt32_of_lt (n : Nat) (h : n < 2 ^ 31) : toInt32 n = (n : Int) := by
  have h1 : n % 2 ^ 32 = n := Nat.mod_eq_of_lt (by omega)
  unfold toInt32
  rw [if_pos (by rw [h1]; exact h), h1]

/-- Claim C5 evaluated on the code: with a null `cancelled` pointer, a first
iteration without cancelling input ends in the write `*cancelled = false`
through the null pointer (line 156, line 282) on both backends; no
`SlopSelection` is returned. -/
theorem null_flag_written_through (M : Model σ T F) (R : Renderer σ T Img)
    (m0 : SlopMemory σ) (pingpong : Framebuffer Img ShaderRef) (o : SlopOptions)
    (window : SlopWindow T Img) (fake : T) (inp : Input) (restX : List Input)
    (restG : List Frame) (hrun : m0.running = true) (hq : cancelInput o inp = false) :
    (XShapeSlopSelect M m0 fake o none (inp :: restX)).outcome = .nullWrite ∧
    (GLSlopSelect M R m0 pingpong o none window
      ({ input := inp, glError := NO_ERROR } :: restG)).outcome = .nullWrite := by
  constructor
  · rw [XShapeSlopSelect_outcome]
    have hr : (Loop.start m0 none : Loop σ T).memory.running = true := hrun
    simp only [xshapeLoop, hr, if_true]
    rw [terminationCheck_null_quiet o inp _ rfl hq]
    rfl
  · rw [GLSlopSelect_outcome]
    have hr : (glStart m0 none window pingpong : GLLoop σ T Img).memory.running = true := hrun
    rw [glLoop_cons M R o window.camera _ _ restG _ hr]
    have hne : ((NO_ERROR : Nat) != NO_ERROR) = false := by simp
    simp only [hne, Bool.false_eq_true, if_false]
    rw [terminationCheck_null_quiet o inp _ rfl hq]
    rfl

/-- A run of `SlopSelect` without a flag: the pointer only moves in the first
frame, and both backends stop at the null write. -/
theorem null_flag_written_through_witness :
    dragStart.running = true ∧
    cancelInput SlopOptions.defaults (frameAt false [] 5 5).input = false ∧
    (XShapeSlopSelect dragModel dragStart 0 SlopOptions.defaults none
      ((frameAt false [] 5 5).input :: [])).outcome = .nullWrite ∧
    (GLSlopSelect dragModel listRenderer dragStart listPingpong SlopOptions.defaults none
      listWindow ({ input := (frameAt false [] 5 5).input, glError := NO_ERROR }
        :: [dragRelease])).outcome = .nullWrite ∧
    (SlopSelect listEnv dragModel listRenderer none none false
      (dragMoves ++ [dragRelease]) : Session Drag Nat Int).outcome = .nullWrite ∧
    (SlopSelect { listEnv with hasCompositor := false } dragModel listRenderer none none false
      (dragMoves ++ [dragRelease]) : Session Drag Nat Int).outcome = .nullWrite :=
  ⟨by decide, by decide,
    (null_flag_written_through dragModel listRenderer dragStart listPingpong
      SlopOptions.defaults listWindow 0 (frameAt false [] 5 5).input [] [dragRelease]
      (by decide) (by decide)).1,
    (null_flag_written_through dragModel listRenderer dragStart listPingpong
      SlopOptions.defaults listWindow 0 (frameAt false [] 5 5).input [] [dragRelease]
      (by decide) (by decide)).2,
    by decide, by decide⟩

/-- Claim C6, amended. With a flag provided: when an iteration's update leaves
the model not running, its snapshot has no cancelling input and, on the
accelerated backend, its render sequence surfaces no graphics error, then that
iteration is the last one, the flag ends false, and the selection returned
carries the model's rectangle after that iteration and its `selectedWindow`
converted to `int` (the same number for every window id below `2 ^ 31`). -/
theorem model_stop_confirms (M : Model σ T F) (R : Renderer σ T Img)
    (m0 : SlopMemory σ) (pingpong : Framebuffer Img ShaderRef) (o : SlopOptions) (b : Bool)
    (window : SlopWindow T Img) (fake : T) (pre : List Frame) (fr : Frame)
    (rest : List Frame) (hq : cancelInput o fr.input = false) :
    ((XShapeSlopSelect M m0 fake o (some b) (pre.map Frame.input)).outcome = .pending →
      (M.update fr.input
        (XShapeSlopSelect M m0 fake o (some b) (pre.map Frame.input)).loop.memory).running
          = false →
      ∀ m1 : SlopMemory σ,
        m1 = { running := false,
               core := M.draw fake (M.update fr.input
                 (XShapeSlopSelect M m0 fake o (some b)
                   (pre.map Frame.input)).loop.memory).core } →
        (XShapeSlopSelect M m0 fake o (some b)
            ((pre ++ fr :: rest).map Frame.input)).loop.iters = pre.length + 1 ∧
        (XShapeSlopSelect M m0 fake o (some b)
            ((pre ++ fr :: rest).map Frame.input)).loop.memory = m1 ∧
        (XShapeSlopSelect M m0 fake o (some b)
            ((pre ++ fr :: rest).map Frame.input)).loop.cancelled = some false ∧
        (XShapeSlopSelect M m0 fake o (some b)
            ((pre ++ fr :: rest).map Frame.input)).outcome
          = .returned { x := (M.getRect m1.core).x, y := (M.getRect m1.core).y,
                        w := (M.getRect m1.core).z, h := (M.getRect m1.core).w,
                        id := toInt32 (M.selectedWindow m1.core) } ∧
        (M.selectedWindow m1.core < 2 ^ 31 →
          toInt32 (M.selectedWindow m1.core) = (M.selectedWindow m1.core : Int))) ∧
    ((GLSlopSelect M R m0 pingpong o (some b) window pre).outcome = .pending →
      (M.update fr.input
        (GLSlopSelect M R m0 pingpong o (some b) window pre).loop.memory).running = false →
      fr.glError = NO_ERROR →
      ∀ m1 : SlopMemory σ,
        m1 = { running := false,
               core := M.draw window.camera (M.update fr.input
                 (GLSlopSelect M R m0 pingpong o (some b) window pre).loop.memory).core } →
        (GLSlopSelect M R m0 pingpong o (some b) window (pre ++ fr :: rest)).loop.iters
          = pre.length + 1 ∧
        (GLSlopSelect M R m0 pingpong o (some b) window (pre ++ fr :: rest)).loop.memory
          = m1 ∧
        (GLSlopSelect M R m0 pingpong o (some b) window (pre ++ fr :: rest)).loop.cancelled
          = some false ∧
        (GLSlopSelect M R m0 pingpong o (some b) window (pre ++ fr :: rest)).outcome
          = .returned { x := (M.getRect m1.core).x, y := (M.getRect m1.core).y,
                        w := (M.getRect m1.core).z, h := (M.getRect m1.core).w,
                        id := toInt32 (M.selectedWindow m1.core) } ∧
        (M.selectedWindow m1.core < 2 ^ 31 →
          toInt32 (M.selectedWindow m1.core) = (M.selectedWindow m1.core : Int))) := by
  constructor
  · intro hp hstop m1 hm1
    rw [XShapeSlopSelect_outcome, outcomeOf_pending] at hp
    rw [XShapeSlopSelect_loop] at hstop hm1
    have hrun := xshapeLoop_pending_running M o fake _ _ hp
    obtain ⟨n, hn, hi, -, hc, -, -, hs⟩ :=
      xshapeLoop_trace M o fake (pre.map Frame.input) (Loop.start m0 (some b)) b rfl
    have hnl : n = pre.length := by
      rcases hs with hs | ⟨-, hl⟩
      · rw [hp] at hs; cases hs
      · simpa using hl
    have h0 : (Loop.start m0 (some b) : Loop σ T).iters = 0 := rfl
    rw [h0, Nat.zero_add, hnl] at hi
    have hloop : xshapeLoop M o fake ((pre ++ fr :: rest).map Frame.input)
        (Loop.start m0 (some b))
        = (checked o fr.input (xshapeDrawn M fake fr.input
            (xshapeLoop M o fake (pre.map Frame.input) (Loop.start m0 (some b))).1),
           Stop.exited) := by
      rw [List.map_append, List.map_cons, xshapeLoop_append M o fake _ _ _ hp,
        xshapeLoop_cons M o fake _ _ _ _ hrun hc]
      apply xshapeLoop_stopped
      simp [checked, xshapeDrawn, hstop]
    rw [XShapeSlopSelect_loop, XShapeSlopSelect_outcome, hloop]
    refine ⟨?_, ?_, ?_, ?_, toInt32_of_lt _⟩
    · simp [checked, xshapeDrawn, hi]
    · rw [hm1]; simp [checked, xshapeDrawn, hstop]
    · simp [checked, hq]
    · rw [hm1]; simp [outcomeOf, selectionOf, checked, xshapeDrawn, hstop]
  · intro hp hstop he m1 hm1
    rw [GLSlopSelect_outcome, outcomeOf_pending] at hp
    rw [GLSlopSelect_loop] at hstop hm1
    obtain ⟨n, hn, -, hcase⟩ :=
      glLoop_stop M R o window.camera (buildShaders 0 o.shaders) pre
        (glStart m0 (some b) window pingpong)
    obtain ⟨c, -, -, hc, -, -, -⟩ :=
      glLoop_trace M R o window.camera (buildShaders 0 o.shaders) pre
        (glStart m0 (some b) window pingpong) b rfl
    have h0 : (glStart m0 (some b) window pingpong : GLLoop σ T Img).iters = 0 := rfl
    rw [h0] at hcase
    simp only [Nat.zero_add] at hcase
    obtain ⟨hi, hrun⟩ :
        (glLoop M R o window.camera (buildShaders 0 o.shaders) pre
          (glStart m0 (some b) window pingpong)).1.iters = pre.length ∧
        (glLoop M R o window.camera (buildShaders 0 o.shaders) pre
          (glStart m0 (some b) window pingpong)).1.memory.running = true := by
      rcases hcase with ⟨h1, -, -⟩ | ⟨-, h2, h3, h4⟩ | ⟨x, -, -, h3, -⟩ | ⟨x, -, -, -, -, h5, -⟩
      · rw [hp] at h1; cases h1
      · exact ⟨by rw [h3, h2], h4⟩
      · rw [hp] at h3; cases h3
      · rw [hp] at h5; cases h5
    have hloop : glLoop M R o window.camera (buildShaders 0 o.shaders) (pre ++ fr :: rest)
        (glStart m0 (some b) window pingpong)
        = (glNext M R o window.camera (buildShaders 0 o.shaders) fr
            (glLoop M R o window.camera (buildShaders 0 o.shaders) pre
              (glStart m0 (some b) window pingpong)).1,
           Stop.exited) := by
      rw [glLoop_append M R o window.camera _ _ _ _ hp,
        glLoop_cons_flag M R o window.camera _ _ _ _ _ hrun hc he]
      apply glLoop_stopped
      simp [glNext, checked, glDrawn, hstop]
    rw [GLSlopSelect_loop, GLSlopSelect_outcome, hloop]
    refine ⟨?_, ?_, ?_, ?_, toInt32_of_lt _⟩
    · simp [glNext, checked, glDrawn, hi]
    · rw [hm1]; simp [glNext, checked, glDrawn, hstop]
    · simp [glNext, checked, hq]
    · rw [hm1]; simp [outcomeOf, selectionOf, glNext, checked, glDrawn, hstop]

/-- A drag from (10,10) to (110,60): the release frame stops the model, and
both backends return the rectangle with the flag false. -/
theorem model_stop_confirms_witness :
    cancelInput SlopOptions.defaults dragRelease.input = false ∧
    (XShapeSlopSelect dragModel dragStart 0 SlopOptions.defaults (some true)
      ((dragMoves ++ dragRelease :: []).map Frame.input)).outcome
        = .returned { x := 10, y := 10, w := 100, h := 50, id := 0 } ∧
    (XShapeSlopSelect dragModel dragStart 0 SlopOptions.defaults (some true)
      ((dragMoves ++ dragRelease :: []).map Frame.input)).loop.cancelled = some false ∧
    (GLSlopSelect dragModel listRenderer dragStart listPingpong SlopOptions.defaults
      (some true) listWindow (dragMoves ++ dragRelease :: [])).outcome
        = .returned { x := 10, y := 10, w := 100, h := 50, id := 0 } ∧
    (GLSlopSelect dragModel listRenderer dragStart listPingpong SlopOptions.defaults
      (some true) listWindow (dragMoves ++ dragRelease :: [])).loop.cancelled = some false :=
  have h := model_stop_confirms dragModel listRenderer dragStart listPingpong
    SlopOptions.defaults true listWindow 0 dragMoves dragRelease [] (by decide)
  have hx := h.1 (by decide) (by decide) _ rfl
  have hg := h.2 (by decide) (by decide) (by decide) _ rfl
  ⟨by decide, hx.2.2.2.1, hx.2.2.1, hg.2.2.2.1, hg.2.2.1⟩

/-- Claim C6 as stated fails on the accelerated backend: the first update
stops the model, the snapshot has no cancelling input, yet the frame surfaces
`INVALID_OPERATION`, so the run throws, returns no selection, and the flag
(true before the call) is still true. -/
theorem model_stop_can_raise :
    (GLSlopSelect echoModel unitRenderer ⟨true, 0⟩ ⟨(), .textured⟩ SlopOptions.defaults
      (some true) unitWindow []).outcome = .pending ∧
    (echoModel.update (frameAt false [] 0 0).input
      (GLSlopSelect echoModel unitRenderer ⟨true, 0⟩ ⟨(), .textured⟩ SlopOptions.defaults
        (some true) unitWindow []).loop.memory).running = false ∧
    cancelInput SlopOptions.defaults (frameAt false [] 0 0).input = false ∧
    (GLSlopSelect echoModel unitRenderer ⟨true, 0⟩ ⟨(), .textured⟩ SlopOptions.defaults
      (some true) unitWindow [{ frameAt false [] 0 0 with glError := 0x0502 }]).outcome
        = .raised "OpenGL threw an error: INVALID_OPERATION" ∧
    (GLSlopSelect echoModel unitRenderer ⟨true, 0⟩ ⟨(), .textured⟩ SlopOptions.defaults
      (some true) unitWindow
        [{ frameAt false [] 0 0 with glError := 0x0502 }]).loop.cancelled = some true := by
  refine ⟨by decide, by decide, by decide, by decide, by decide⟩

/-- When `GLSlopSelect` throws: exactly when the last iteration it started
surfaced an error code other than `NO_ERROR`; every earlier iteration surfaced
none, and with a flag provided an error-free run is either still in its loop
or has returned a selection. -/
theorem GLSlopSelect_raises_iff (M : Model σ T F) (R : Renderer σ T Img)
    (m0 : SlopMemory σ) (pingpong : Framebuffer Img ShaderRef) (o : SlopOptions)
    (c : Option Bool) (window : SlopWindow T Img) (frames : List Frame) :
    (∀ w, (GLSlopSelect M R m0 pingpong o c window frames).outcome = .raised w ↔
      ∃ fr, 1 ≤ (GLSlopSelect M R m0 pingpong o c window frames).loop.iters ∧
        frames[(GLSlopSelect M R m0 pingpong o c window frames).loop.iters - 1]? = some fr ∧
        fr.glError ≠ NO_ERROR ∧ w = glMessage fr.glError) ∧
    (∀ k fr, k + 1 < (GLSlopSelect M R m0 pingpong o c window frames).loop.iters →
      frames[k]? = some fr → fr.glError = NO_ERROR) ∧
    ((∀ k fr, k < (GLSlopSelect M R m0 pingpong o c window frames).loop.iters →
        frames[k]? = some fr → fr.glError = NO_ERROR) →
      (∀ w, (GLSlopSelect M R m0 pingpong o c window frames).outcome ≠ .raised w) ∧
      (c ≠ none →
        (GLSlopSelect M R m0 pingpong o c window frames).outcome = .pending ∨
        ∃ sel, (GLSlopSelect M R m0 pingpong o c window frames).outcome = .returned sel)) := by
  obtain ⟨n, hn, herr, hcase⟩ :=
    glLoop_stop M R o window.camera (buildShaders 0 o.shaders) frames
      (glStart m0 c window pingpong)
  have h0 : (glStart m0 c window pingpong : GLLoop σ T Img).iters = 0 := rfl
  have hc0 : (glStart m0 c window pingpong : GLLoop σ T Img).cancelled = c := rfl
  rw [h0, hc0] at hcase
  simp only [Nat.zero_add] at hcase
  rw [GLSlopSelect_loop, GLSlopSelect_outcome]
  rcases hcase with ⟨h1, h2, -⟩ | ⟨h1, -, h3, -⟩ | ⟨x, hx, hxe, h3, h4⟩ | ⟨x, hx, hxe, -, hcn, h5, h6⟩
  · rw [h1, h2]
    refine ⟨?_, ?_, ?_⟩
    · intro w
      constructor
      · intro h; simp [outcomeOf] at h
      · rintro ⟨fr, hge, hfr, hne, -⟩
        exact absurd (herr (n - 1) fr (by omega) hfr) hne
    · intro k fr hk hfr
      exact herr k fr (by omega) hfr
    · intro _
      exact ⟨by intro w; simp [outcomeOf], fun _ => Or.inr ⟨_, rfl⟩⟩
  · rw [h1, h3]
    refine ⟨?_, ?_, ?_⟩
    · intro w
      constructor
      · intro h; simp [outcomeOf] at h
      · rintro ⟨fr, hge, hfr, hne, -⟩
        exact absurd (herr (n - 1) fr (by omega) hfr) hne
    · intro k fr hk hfr
      exact herr k fr (by omega) hfr
    · intro _
      exact ⟨by intro w; simp [outcomeOf], fun _ => Or.inl rfl⟩
  · rw [h3, h4]
    refine ⟨?_, ?_, ?_⟩
    · intro w
      constructor
      · intro h
        simp only [outcomeOf, Outcome.raised.injEq] at h
        exact ⟨x, by omega, by simpa using hx, hxe, h.symm⟩
      · rintro ⟨fr, -, hfr, -, hw⟩
        simp only [Nat.add_sub_cancel] at hfr
        rw [hx] at hfr
        cases hfr
        simp [outcomeOf, hw]
    · intro k fr hk hfr
      exact herr k fr (by omega) hfr
    · intro hall
      exact absurd (hall n x (by omega) hx) hxe
  · rw [h5, h6]
    refine ⟨?_, ?_, ?_⟩
    · intro w
      constructor
      · intro h; simp [outcomeOf] at h
      · rintro ⟨fr, -, hfr, hne, -⟩
        simp only [Nat.add_sub_cancel] at hfr
        rw [hx] at hfr
        cases hfr
        exact absurd hxe hne
    · intro k fr hk hfr
      exact herr k fr (by omega) hfr
    · intro _
      exact ⟨by intro w; simp [outcomeOf], fun hc => absurd hcn hc⟩

/-- Claim C8 evaluated on the code: a run of `GLSlopSelect` without a flag in
which no frame surfaces a graphics error stops in its first iteration at the
write through the null pointer (line 282); it does not throw, and it does not
return a selection either. -/
theorem gl_null_flag_ends_without_result :
    (∀ fr ∈ dragMoves ++ [dragRelease], fr.glError = NO_ERROR) ∧
    (GLSlopSelect dragModel listRenderer dragStart listPingpong SlopOptions.defaults none
      listWindow (dragMoves ++ [dragRelease])).outcome = .nullWrite ∧
    (GLSlopSelect dragModel listRenderer dragStart listPingpong SlopOptions.defaults none
      listWindow (dragMoves ++ [dragRelease])).loop.iters = 1 ∧
    (GLSlopSelect dragModel listRenderer dragStart listPingpong SlopOptions.defaults
      (some false) listWindow (dragMoves ++ [dragRelease])).outcome
        = .returned { x := 10, y := 10, w := 100, h := 50, id := 0 } := by
  refine ⟨by decide, by decide, by decide, by decide⟩

/-- Claim C10, amended. For a selection model whose `draw` acts on the model
in the same way for the placeholder matrix of the fallback path as for the
window's camera, and a sequence of frames in which no iteration of the
accelerated loop surfaces a graphics error, both backends make the same number
of iterations, the same sequence of update and draw calls (the transform handed
to `draw` apart), write the same values to the flag, leave the same model and
flag, and end the same way with the same selection. -/
theorem backends_agree (M : Model σ T F) (R : Renderer σ T Img) (m0 : SlopMemory σ)
    (pingpong : Framebuffer Img ShaderRef) (o : SlopOptions) (c : Option Bool)
    (window : SlopWindow T Img) (fake : T) (frames : List Frame)
    (hdraw : ∀ s, M.draw fake s = M.draw window.camera s)
    (herr : ∀ k fr, k < (GLSlopSelect M R m0 pingpong o c window frames).loop.iters →
      frames[k]? = some fr → fr.glError = NO_ERROR) :
    (XShapeSlopSelect M m0 fake o c (frames.map Frame.input)).loop.iters
      = (GLSlopSelect M R m0 pingpong o c window frames).loop.iters ∧
    (XShapeSlopSelect M m0 fake o c (frames.map Frame.input)).loop.calls.map Call.kind
      = (GLSlopSelect M R m0 pingpong o c window frames).loop.calls.map Call.kind ∧
    (XShapeSlopSelect M m0 fake o c (frames.map Frame.input)).loop.writes
      = (GLSlopSelect M R m0 pingpong o c window frames).loop.writes ∧
    (XShapeSlopSelect M m0 fake o c (frames.map Frame.input)).loop.cancelled
      = (GLSlopSelect M R m0 pingpong o c window frames).loop.cancelled ∧
    (XShapeSlopSelect M m0 fake o c (frames.map Frame.input)).loop.memory
      = (GLSlopSelect M R m0 pingpong o c window frames).loop.memory ∧
    (XShapeSlopSelect M m0 fake o c (frames.map Frame.input)).outcome
      = (GLSlopSelect M R m0 pingpong o c window frames).outcome := by
  have hnr : ∀ w, (glLoop M R o window.camera (buildShaders 0 o.shaders) frames
      (glStart m0 c window pingpong)).2 ≠ .raised w := by
    intro w hw
    obtain ⟨n, -, -, hcase⟩ :=
      glLoop_stop M R o window.camera (buildShaders 0 o.shaders) frames
        (glStart m0 c window pingpong)
    rw [GLSlopSelect_loop] at herr
    rcases hcase with ⟨h1, -, -⟩ | ⟨h1, -, -, -⟩ | ⟨x, hx, hxe, -, h4⟩ | ⟨x, -, -, -, -, h5, -⟩
    · rw [hw] at h1; cases h1
    · rw [hw] at h1; cases h1
    · have h0 : (glStart m0 c window pingpong : GLLoop σ T Img).iters = 0 := rfl
      rw [h0] at h4
      exact hxe (herr n x (by rw [h4]; omega) hx)
    · rw [hw] at h5; cases h5
  obtain ⟨⟨h1, h2, h3, h4, h5⟩, hstop⟩ :=
    loops_agree M R o fake window.camera (buildShaders 0 o.shaders) hdraw frames
      (Loop.start m0 c) (glStart m0 c window pingpong) ⟨rfl, rfl, rfl, rfl, rfl⟩ hnr
  rw [XShapeSlopSelect_loop, GLSlopSelect_loop, XShapeSlopSelect_outcome, GLSlopSelect_outcome]
  refine ⟨h3, h5, h4, h2, h1, ?_⟩
  rw [hstop, h1]

/-- The drag of the examples on both backends: the placeholder matrix is 0,
the camera 1, and the model's `draw` ignores the transform. -/
theorem backends_agree_witness :
    (∀ s, dragModel.draw 0 s = dragModel.draw listWindow.camera s) ∧
    (∀ fr ∈ dragMoves ++ [dragRelease], fr.glError = NO_ERROR) ∧
    (XShapeSlopSelect dragModel dragStart 0 SlopOptions.defaults (some true)
        ((dragMoves ++ [dragRelease]).map Frame.input)).loop.iters
      = (GLSlopSelect dragModel listRenderer dragStart listPingpong SlopOptions.defaults
          (some true) listWindow (dragMoves ++ [dragRelease])).loop.iters ∧
    (XShapeSlopSelect dragModel dragStart 0 SlopOptions.defaults (some true)
        ((dragMoves ++ [dragRelease]).map Frame.input)).loop.writes
      = (GLSlopSelect dragModel listRenderer dragStart listPingpong SlopOptions.defaults
          (some true) listWindow (dragMoves ++ [dragRelease])).loop.writes ∧
    (XShapeSlopSelect dragModel dragStart 0 SlopOptions.defaults (some true)
        ((dragMoves ++ [dragRelease]).map Frame.input)).outcome
      = (GLSlopSelect dragModel listRenderer dragStart listPingpong SlopOptions.defaults
          (some true) listWindow (dragMoves ++ [dragRelease])).outcome ∧
    (GLSlopSelect dragModel listRenderer dragStart listPingpong SlopOptions.defaults
          (some true) listWindow (dragMoves ++ [dragRelease])).outcome
      = .returned { x := 10, y := 10, w := 100, h := 50, id := 0 } :=
  have hall : ∀ fr ∈ dragMoves ++ [dragRelease], fr.glError = NO_ERROR := by decide
  have h := backends_agree dragModel listRenderer dragStart listPingpong SlopOptions.defaults
    (some true) listWindow 0 (dragMoves ++ [dragRelease]) (fun _ => rfl)
    (fun _ fr _ hfr => hall fr (List.getElem?_mem hfr))
  ⟨fun _ => rfl, hall, h.1, h.2.2.1, h.2.2.2.2.2, by decide⟩

/-- Claim C10 as stated fails: the fallback loop hands `draw` its placeholder
matrix, the accelerated loop the window's camera. With a model whose `draw`
keeps the transform as its rectangle, one error-free frame gives two different
selections and two different draw calls. -/
theorem backends_differ_on_transform :
    (XShapeSlopSelect echoModel ⟨true, 0⟩ 0 SlopOptions.defaults (some false)
      ([frameAt false [] 0 0].map Frame.input)).outcome
        = .returned { x := 0, y := 0, w := 0, h := 0, id := 0 } ∧
    (GLSlopSelect echoModel unitRenderer ⟨true, 0⟩ ⟨(), .textured⟩ SlopOptions.defaults
      (some false) unitWindow [frameAt false [] 0 0]).outcome
        = .returned { x := 1, y := 1, w := 1, h := 1, id := 0 } ∧
    (XShapeSlopSelect echoModel ⟨true, 0⟩ 0 SlopOptions.defaults (some false)
      ([frameAt false [] 0 0].map Frame.input)).loop.calls
        = [.update (frameAt false [] 0 0).input, .draw 0] ∧
    (GLSlopSelect echoModel unitRenderer ⟨true, 0⟩ ⟨(), .textured⟩ SlopOptions.defaults
      (some false) unitWindow [frameAt false [] 0 0]).loop.calls
        = [.update (frameAt false [] 0 0).input, .draw 1] := by
  refine ⟨by decide, by decide, by decide, by decide⟩

end LoopClaims

/-! ## The claims about `SlopSelect` -/

section SessionClaims

variable {σ T F Img : Type}

theorem probeWindow_cases (E : Env σ T Img) (opts : SlopOptions) :
    (E.hasCompositor = true ∧ opts.noopengl = false ∧
      ∃ w, E.newWindow = .ok w ∧
        probeWindow E opts = (some w, "", [ResEv.attempt .window, ResEv.acquire .window])) ∨
    (E.hasCompositor = true ∧ opts.noopengl = false ∧ (∀ w, E.newWindow ≠ .ok w) ∧
      ∃ msg, probeWindow E opts = (none, msg, [ResEv.attempt .window])) ∨
    ((E.hasCompositor = false ∨ opts.noopengl = true) ∧
      ∃ msg, probeWindow E opts = (none, msg, [])) := by
  unfold probeWindow
  by_cases hc : E.hasCompositor = true
  · by_cases hn : opts.noopengl = true
    · right; right
      exact ⟨Or.inr hn, _, by rw [hc, hn]; rfl⟩
    · simp only [Bool.not_eq_true] at hn
      cases hw : E.newWindow with
      | ok w =>
        left
        refine ⟨hc, hn, w, rfl, ?_⟩
        rw [hc, hn]
        rfl
      | error e =>
        right; left
        refine ⟨hc, hn, ?_, ?_⟩
        · intro w h
          cases h
        · cases e with
          | none =>
            exact ⟨_, by rw [hc, hn]; rfl⟩
          | some what =>
            exact ⟨_, by rw [hc, hn]; rfl⟩
  · simp only [Bool.not_eq_true] at hc
    right; right
    exact ⟨Or.inl hc, _, by rw [hc]; rfl⟩

theorem XShapeSlopSelect_res_mem (M : Model σ T F) (m0 : SlopMemory σ) (fake : T)
    (o : SlopOptions) (c : Option Bool) (inputs : List Input) :
    ∀ ev ∈ (XShapeSlopSelect M m0 fake o c inputs).res,
      ev = .acquire .memory ∨ ev = .acquire .mouse ∨ ev = .release .mouse ∨
      ev = .release .memory := by
  intro ev hev
  simp only [XShapeSlopSelect] at hev
  generalize (xshapeLoop M o fake inputs (Loop.start m0 c)).2 = s at hev
  cases s <;> simp at hev <;> tauto

theorem sessionAcquires_mem (d : Bool) (opts : SlopOptions) :
    ∀ ev ∈ sessionAcquires d opts,
      ev = .acquire .options ∨ ev = .acquire .resource ∨ ev = .acquire .x11 ∨
      ev = .acquire .keyboard := by
  intro ev hev
  simp only [sessionAcquires] at hev
  cases d <;> cases hk : opts.nokeyboard <;> simp [hk] at hev <;> tauto

theorem afterBackend_mem (d : Bool) (out : Outcome F) :
    ∀ ev ∈ afterBackend d out,
      ev = .release .x11 ∨ ev = .release .resource ∨ ev = .release .options := by
  intro ev hev
  cases out <;> cases d <;> simp [afterBackend, teardown] at hev <;> tauto

/-- Claim C7. `SlopSelect` calls the constructor of the accelerated window
exactly when a compositor is present and `noopengl` is false; it runs
`GLSlopSelect` exactly when that call was made and did not throw, and
`XShapeSlopSelect` in every other case. Without a compositor, or with
`noopengl` set, no window, shader or ping-pong framebuffer is constructed. -/
theorem backend_selection (E : Env σ T Img) (M : Model σ T F) (R : Renderer σ T Img)
    (options : Option SlopOptions) (cancelled : Option Bool) (quiet : Bool)
    (frames : List Frame) :
    (ResEv.attempt .window ∈ (SlopSelect E M R options cancelled quiet frames).res ↔
      (E.hasCompositor = true ∧ (options.getD SlopOptions.defaults).noopengl = false)) ∧
    ((SlopSelect E M R options cancelled quiet frames).backend = .gl ↔
      (E.hasCompositor = true ∧ (options.getD SlopOptions.defaults).noopengl = false ∧
        ∃ w, E.newWindow = .ok w)) ∧
    ((SlopSelect E M R options cancelled quiet frames).backend = .xshape ↔
      ¬ (E.hasCompositor = true ∧ (options.getD SlopOptions.defaults).noopengl = false ∧
        ∃ w, E.newWindow = .ok w)) ∧
    (∀ w, E.hasCompositor = true → (options.getD SlopOptions.defaults).noopengl = false →
      E.newWindow = .ok w →
      (SlopSelect E M R options cancelled quiet frames).outcome
        = (GLSlopSelect M R (E.glMemory (options.getD SlopOptions.defaults)) E.newPingpong
            (options.getD SlopOptions.defaults) cancelled w frames).outcome) ∧
    ((SlopSelect E M R options cancelled quiet frames).backend = .xshape →
      (SlopSelect E M R options cancelled quiet frames).outcome
        = (XShapeSlopSelect M (E.xshapeMemory (options.getD SlopOptions.defaults)) E.fake
            (options.getD SlopOptions.defaults) cancelled (frames.map Frame.input)).outcome) ∧
    ((E.hasCompositor = false ∨ (options.getD SlopOptions.defaults).noopengl = true) →
      ∀ ev ∈ (SlopSelect E M R options cancelled quiet frames).res,
        ev ≠ .attempt .window ∧ ev ≠ .acquire .window ∧ ev ≠ .acquire .pingpong ∧
        ∀ sh, ev ≠ .acquire (.shader sh)) := by
  rcases probeWindow_cases E (options.getD SlopOptions.defaults) with
    ⟨hc, hn, w, hw, hp⟩ | ⟨hc, hn, hw, msg, hp⟩ | ⟨hcn, msg, hp⟩
  · have hs : SlopSelect E M R options cancelled quiet frames =
        { backend := .gl,
          outcome := (GLSlopSelect M R (E.glMemory (options.getD SlopOptions.defaults))
            E.newPingpong (options.getD SlopOptions.defaults) cancelled w frames).outcome,
          loop := (GLSlopSelect M R (E.glMemory (options.getD SlopOptions.defaults))
            E.newPingpong (options.getD SlopOptions.defaults) cancelled w frames).loop,
          stderr := "",
          res := sessionAcquires options.isNone (options.getD SlopOptions.defaults)
            ++ [ResEv.attempt .window, ResEv.acquire .window]
            ++ (GLSlopSelect M R (E.glMemory (options.getD SlopOptions.defaults))
                E.newPingpong (options.getD SlopOptions.defaults) cancelled w frames).res
            ++ afterBackend options.isNone
                (GLSlopSelect M R (E.glMemory (options.getD SlopOptions.defaults))
                  E.newPingpong (options.getD SlopOptions.defaults) cancelled w frames).outcome } := by
      simp only [SlopSelect, hp]
    rw [hs]
    refine ⟨?_, ?_, ?_, ?_, ?_, ?_⟩
    · simp [hc, hn]
    · simp [hc, hn, hw]
    · simp [hc, hn, hw]
    · intro w2 _ _ hw2
      rw [hw] at hw2
      cases hw2
      rfl
    · intro h; cases h
    · intro h
      rcases h with h | h
      · rw [hc] at h; cases h
      · rw [hn] at h; cases h
  · have hs : SlopSelect E M R options cancelled quiet frames =
        { backend := .xshape,
          outcome := (XShapeSlopSelect M (E.xshapeMemory (options.getD SlopOptions.defaults))
            E.fake (options.getD SlopOptions.defaults) cancelled
            (frames.map Frame.input)).outcome,
          loop := (XShapeSlopSelect M (E.xshapeMemory (options.getD SlopOptions.defaults))
            E.fake (options.getD SlopOptions.defaults) cancelled
            (frames.map Frame.input)).loop,
          stderr := diagnostic quiet (options.getD SlopOptions.defaults) msg,
          res := sessionAcquires options.isNone (options.getD SlopOptions.defaults)
            ++ [ResEv.attempt .window]
            ++ (XShapeSlopSelect M (E.xshapeMemory (options.getD SlopOptions.defaults))
                E.fake (options.getD SlopOptions.defaults) cancelled
                (frames.map Frame.input)).res
            ++ afterBackend options.isNone
                (XShapeSlopSelect M (E.xshapeMemory (options.getD SlopOptions.defaults))
                  E.fake (options.getD SlopOptions.defaults) cancelled
                  (frames.map Frame.input)).outcome } := by
      simp only [SlopSelect, hp]
    rw [hs]
    refine ⟨?_, ?_, ?_, ?_, ?_, ?_⟩
    · simp [hc, hn]
    · simp [hc, hn, hw]
    · simp [hc, hn, hw]
    · intro w2 _ _ hw2
      exact absurd hw2 (hw w2)
    · intro _; rfl
    · intro h
      rcases h with h | h
      · rw [hc] at h; cases h
      · rw [hn] at h; cases h
  · have hs : SlopSelect E M R options cancelled quiet frames =
        { backend := .xshape,
          outcome := (XShapeSlopSelect M (E.xshapeMemory (options.getD SlopOptions.defaults))
            E.fake (options.getD SlopOptions.defaults) cancelled
            (frames.map Frame.input)).outcome,
          loop := (XShapeSlopSelect M (E.xshapeMemory (options.getD SlopOptions.defaults))
            E.fake (options.getD SlopOptions.defaults) cancelled
            (frames.map Frame.input)).loop,
          stderr := diagnostic quiet (options.getD SlopOptions.defaults) msg,
          res := sessionAcquires options.isNone (options.getD SlopOptions.defaults)
            ++ []
            ++ (XShapeSlopSelect M (E.xshapeMemory (options.getD SlopOptions.defaults))
                E.fake (options.getD SlopOptions.defaults) cancelled
                (frames.map Frame.input)).res
            ++ afterBackend options.isNone
                (XShapeSlopSelect M (E.xshapeMemory (options.getD SlopOptions.defaults))
                  E.fake (options.getD SlopOptions.defaults) cancelled
                  (frames.map Frame.input)).outcome } := by
      simp only [SlopSelect, hp]
    rw [hs]
    have hnot : ¬ (E.hasCompositor = true ∧
        (options.getD SlopOptions.defaults).noopengl = false) := by
      rintro ⟨h1, h2⟩
      rcases hcn with h | h
      · rw [h1] at h; cases h
      · rw [h2] at h; cases h
    have hmem : ∀ ev ∈ sessionAcquires options.isNone (options.getD SlopOptions.defaults)
          ++ []
          ++ (XShapeSlopSelect M (E.xshapeMemory (options.getD SlopOptions.defaults))
              E.fake (options.getD SlopOptions.defaults) cancelled
              (frames.map Frame.input)).res
          ++ afterBackend options.isNone
              (XShapeSlopSelect M (E.xshapeMemory (options.getD SlopOptions.defaults))
                E.fake (options.getD SlopOptions.defaults) cancelled
                (frames.map Frame.input)).outcome,
        ev ≠ .attempt .window ∧ ev ≠ .acquire .window ∧ ev ≠ .acquire .pingpong ∧
        ∀ sh, ev ≠ .acquire (.shader sh) := by
      intro ev hev
      simp only [List.append_nil, List.mem_append] at hev
      rcases hev with (hev | hev) | hev
      · rcases sessionAcquires_mem _ _ ev hev with h | h | h | h <;> subst h <;> simp
      · rcases XShapeSlopSelect_res_mem M _ _ _ _ _ ev hev with h | h | h | h <;>
          subst h <;> simp
      · rcases afterBackend_mem _ _ ev hev with h | h | h <;> subst h <;> simp
    refine ⟨?_, ?_, ?_, ?_, ?_, ?_⟩
    · constructor
      · intro h
        exact absurd rfl (hmem _ h).1
      · intro h
        exact absurd h hnot
    · constructor
      · intro h; cases h
      · rintro ⟨h1, h2, -⟩
        exact absurd ⟨h1, h2⟩ hnot
    · constructor
      · rintro - ⟨h1, h2, -⟩
        exact hnot ⟨h1, h2⟩
      · intro _; rfl
    · intro w2 h1 h2 _
      exact absurd ⟨h1, h2⟩ hnot
    · intro _; rfl
    · intro _
      exact hmem

theorem buildShaders_index (names : List String) :
    ∀ (k i : Nat) (n : String), ShaderRef.loaded i n ∈ buildShaders k names → k ≤ i := by
  induction names with
  | nil => intro k i n h; simp [buildShaders] at h
  | cons sn rest ih =>
    intro k i n h
    simp only [buildShaders, List.mem_cons] at h
    rcases h with h | h
    · by_cases hs : (sn != "textured") = true
      · simp only [hs, if_true, ShaderRef.loaded.injEq] at h
        omega
      · simp [hs] at h
    · have := ih (k + 1) i n h
      omega

theorem buildShaders_count_le (names : List String) :
    ∀ (k i : Nat) (n : String), (buildShaders k names).count (ShaderRef.loaded i n) ≤ 1 := by
  induction names with
  | nil => intro k i n; simp [buildShaders]
  | cons sn rest ih =>
    intro k i n
    simp only [buildShaders, List.count_cons]
    by_cases hx : ((if (sn != "textured") = true then ShaderRef.loaded k sn
        else ShaderRef.textured) == ShaderRef.loaded i n) = true
    · have hik : k = i := by
        by_cases hs : (sn != "textured") = true
        · simp only [hs, if_true, beq_iff_eq, ShaderRef.loaded.injEq] at hx
          exact hx.1
        · simp [hs] at hx
      have hz : (buildShaders (k + 1) rest).count (ShaderRef.loaded i n) = 0 := by
        apply List.count_eq_zero_of_not_mem
        intro hmem
        have := buildShaders_index rest (k + 1) i n hmem
        omega
      rw [hz, if_pos hx]
    · rw [if_neg hx]
      have := ih (k + 1) i n
      omega

theorem count_release_shaderReleases (shaders : List ShaderRef) (s : ShaderRef) :
    (shaderReleases shaders).count (ResEv.release (.shader s)) = shaders.count s := by
  induction shaders with
  | nil => simp [shaderReleases]
  | cons x xs ih =>
    simp only [shaderReleases, List.map_cons, List.count_cons] at ih ⊢
    rw [ih]
    by_cases hx : x = s
    · simp [hx]
    · simp [hx]

theorem count_release_shaderReleases_other (shaders : List ShaderRef) (r : Res)
    (h : ∀ s, r ≠ .shader s) :
    (shaderReleases shaders).count (ResEv.release r) = 0 := by
  apply List.count_eq_zero_of_not_mem
  intro hmem
  simp only [shaderReleases, List.mem_map] at hmem
  obtain ⟨s, -, hs⟩ := hmem
  cases hs
  exact h s rfl

theorem count_release_shaderAcquires (shaders : List ShaderRef) (r : Res) :
    (shaderAcquires shaders).count (ResEv.release r) = 0 := by
  apply List.count_eq_zero_of_not_mem
  intro hmem
  simp [shaderAcquires] at hmem

theorem count_release_sessionAcquires (d : Bool) (opts : SlopOptions) (r : Res) :
    (sessionAcquires d opts).count (ResEv.release r) = 0 := by
  apply List.count_eq_zero_of_not_mem
  intro hmem
  rcases sessionAcquires_mem d opts _ hmem with h | h | h | h <;> cases h

theorem acquire_shader_mem (shaders : List ShaderRef) (i : Nat) (n : String)
    (h : ResEv.acquire (.shader (.loaded i n)) ∈ shaderAcquires shaders) :
    ShaderRef.loaded i n ∈ shaders := by
  simp only [shaderAcquires, List.mem_cons, List.mem_map, List.mem_filter] at h
  rcases h with h | ⟨s, ⟨hs, -⟩, he⟩
  · cases h
  · cases he
    exact hs

theorem xshapeLoop_not_raised (M : Model σ T F) (o : SlopOptions) (fake : T) :
    ∀ (xs : List Input) (st : Loop σ T) (w : String),
      (xshapeLoop M o fake xs st).2 ≠ .raised w := by
  intro xs
  induction xs with
  | nil =>
    intro st w
    by_cases hr : st.memory.running = true <;> simp [xshapeLoop, hr]
  | cons inp rest ih =>
    intro st w
    by_cases hr : st.memory.running = true
    · simp only [xshapeLoop, hr, if_true]
      cases htc : terminationCheck o inp
          { st with memory := { M.update inp st.memory with
                                core := M.draw fake (M.update inp st.memory).core },
                    iters := st.iters + 1,
                    calls := st.calls ++ [.update inp, .draw fake] } with
      | none => simp
      | some st2 => exact ih st2 w
    · simp only [Bool.not_eq_true] at hr
      rw [xshapeLoop_stopped M o fake _ st hr]
      simp

theorem XShapeSlopSelect_res (M : Model σ T F) (m0 : SlopMemory σ) (fake : T)
    (o : SlopOptions) (c : Option Bool) (inputs : List Input) :
    (∀ w, (XShapeSlopSelect M m0 fake o c inputs).outcome ≠ .raised w) ∧
    (∀ sel, (XShapeSlopSelect M m0 fake o c inputs).outcome = .returned sel →
      (XShapeSlopSelect M m0 fake o c inputs).res
        = [.acquire .memory, .acquire .mouse, .release .mouse, .release .memory]) := by
  have hnr := xshapeLoop_not_raised M o fake inputs (Loop.start m0 c)
  simp only [XShapeSlopSelect]
  generalize (xshapeLoop M o fake inputs (Loop.start m0 c)).2 = s at hnr
  cases s with
  | exited => simp [outcomeOf]
  | raised w => exact absurd rfl (hnr w)
  | nullWrite => simp [outcomeOf]
  | pending => simp [outcomeOf]

theorem GLSlopSelect_res (M : Model σ T F) (R : Renderer σ T Img) (m0 : SlopMemory σ)
    (pingpong : Framebuffer Img ShaderRef) (o : SlopOptions) (c : Option Bool)
    (window : SlopWindow T Img) (frames : List Frame) :
    (∀ w, (GLSlopSelect M R m0 pingpong o c window frames).outcome = .raised w →
      (GLSlopSelect M R m0 pingpong o c window frames).res
        = [ResEv.acquire .mouse] ++ shaderAcquires (buildShaders 0 o.shaders)
            ++ [ResEv.acquire .memory, ResEv.acquire .pingpong]) ∧
    (∀ sel, (GLSlopSelect M R m0 pingpong o c window frames).outcome = .returned sel →
      (GLSlopSelect M R m0 pingpong o c window frames).res
        = [ResEv.acquire .mouse] ++ shaderAcquires (buildShaders 0 o.shaders)
            ++ [ResEv.acquire .memory, ResEv.acquire .pingpong]
            ++ (shaderReleases (buildShaders 0 o.shaders)
              ++ [.release .pingpong, .release .window, .release .mouse, .release .memory])) := by
  simp only [GLSlopSelect]
  generalize (glLoop M R o window.camera (buildShaders 0 o.shaders) frames
    (glStart m0 c window pingpong)).2 = s
  cases s <;> simp [outcomeOf]

theorem SlopSelect_of_window (E : Env σ T Img) (M : Model σ T F) (R : Renderer σ T Img)
    (options : Option SlopOptions) (cancelled : Option Bool) (quiet : Bool)
    (frames : List Frame) (w : SlopWindow T Img) (msg : String) (res1 : List ResEv)
    (hp : probeWindow E (options.getD SlopOptions.defaults) = (some w, msg, res1)) :
    (SlopSelect E M R options cancelled quiet frames).backend = .gl ∧
    (SlopSelect E M R options cancelled quiet frames).outcome
      = (GLSlopSelect M R (E.glMemory (options.getD SlopOptions.defaults)) E.newPingpong
          (options.getD SlopOptions.defaults) cancelled w frames).outcome ∧
    (SlopSelect E M R options cancelled quiet frames).res
      = sessionAcquires options.isNone (options.getD SlopOptions.defaults) ++ res1
        ++ (GLSlopSelect M R (E.glMemory (options.getD SlopOptions.defaults)) E.newPingpong
            (options.getD SlopOptions.defaults) cancelled w frames).res
        ++ afterBackend options.isNone
            (GLSlopSelect M R (E.glMemory (options.getD SlopOptions.defaults)) E.newPingpong
              (options.getD SlopOptions.defaults) cancelled w frames).outcome := by
  simp only [SlopSelect, hp, and_self]

theorem SlopSelect_of_none (E : Env σ T Img) (M : Model σ T F) (R : Renderer σ T Img)
    (options : Option SlopOptions) (cancelled : Option Bool) (quiet : Bool)
    (frames : List Frame) (msg : String) (res1 : List ResEv)
    (hp : probeWindow E (options.getD SlopOptions.defaults) = (none, msg, res1)) :
    (SlopSelect E M R options cancelled quiet frames).backend = .xshape ∧
    (SlopSelect E M R options cancelled quiet frames).outcome
      = (XShapeSlopSelect M (E.xshapeMemory (options.getD SlopOptions.defaults)) E.fake
          (options.getD SlopOptions.defaults) cancelled (frames.map Frame.input)).outcome ∧
    (SlopSelect E M R options cancelled quiet frames).res
      = sessionAcquires options.isNone (options.getD SlopOptions.defaults) ++ res1
        ++ (XShapeSlopSelect M (E.xshapeMemory (options.getD SlopOptions.defaults)) E.fake
            (options.getD SlopOptions.defaults) cancelled (frames.map Frame.input)).res
        ++ afterBackend options.isNone
            (XShapeSlopSelect M (E.xshapeMemory (options.getD SlopOptions.defaults)) E.fake
              (options.getD SlopOptions.defaults) cancelled (frames.map Frame.input)).outcome := by
  simp only [SlopSelect, hp, and_self]

theorem acquire_options_sessionAcquires (d : Bool) (opts : SlopOptions)
    (h : ResEv.acquire .options ∈ sessionAcquires d opts) : d = true := by
  cases d
  · cases hk : opts.nokeyboard <;> simp [sessionAcquires, hk] at h
  · rfl

theorem count_release_teardown (d : Bool) (r : Res) :
    (teardown d).count (ResEv.release r)
      = if r = .x11 ∨ r = .resource ∨ (r = .options ∧ d = true) then 1 else 0 := by
  cases d <;> cases r <;> simp [teardown, List.count_cons]

theorem acquired_on_gl_return (d : Bool) (opts : SlopOptions) (shaders : List ShaderRef)
    (r : Res)
    (h : ResEv.acquire r ∈ sessionAcquires d opts
        ++ [ResEv.attempt .window, ResEv.acquire .window]
        ++ ([ResEv.acquire .mouse] ++ shaderAcquires shaders
            ++ [ResEv.acquire .memory, ResEv.acquire .pingpong]
            ++ (shaderReleases shaders
              ++ [.release .pingpong, .release .window, .release .mouse, .release .memory]))
        ++ teardown d) :
    (r = .options ∧ d = true) ∨ r = .resource ∨ r = .x11 ∨ r = .keyboard ∨ r = .window ∨
    r = .mouse ∨ r = .memory ∨ r = .pingpong ∨ r = .shader .textured ∨
    ∃ i n, r = .shader (.loaded i n) ∧ ShaderRef.loaded i n ∈ shaders := by
  cases r with
  | shader s =>
    cases s with
    | textured => simp
    | loaded i n =>
      have : ShaderRef.loaded i n ∈ shaders := by
        cases d <;> cases hk : opts.nokeyboard <;>
          simpa [sessionAcquires, hk, shaderAcquires, shaderReleases, teardown] using h
      right; right; right; right; right; right; right; right; right
      exact ⟨i, n, rfl, this⟩
  | options =>
    cases d
    · cases hk : opts.nokeyboard <;>
        simp [sessionAcquires, hk, shaderAcquires, shaderReleases, teardown] at h
    · simp
  | _ => simp

theorem acquired_on_xshape_return (d : Bool) (opts : SlopOptions) (res1 : List ResEv)
    (r : Res) (h1 : res1 = [] ∨ res1 = [ResEv.attempt .window])
    (h : ResEv.acquire r ∈ sessionAcquires d opts ++ res1
        ++ [.acquire .memory, .acquire .mouse, .release .mouse, .release .memory]
        ++ teardown d) :
    (r = .options ∧ d = true) ∨ r = .resource ∨ r = .x11 ∨ r = .keyboard ∨
    r = .mouse ∨ r = .memory := by
  rcases h1 with h1 | h1 <;> subst h1 <;> cases r <;> cases d <;>
    cases hk : opts.nokeyboard <;>
    simp [sessionAcquires, hk, teardown] at h ⊢

/-- Claim C9, amended. When a run of `SlopSelect` returns a selection, on
either backend, each of the display connection, the resource locator, the
mouse, the selection model, the rendering surface, the ping-pong framebuffer,
every shader loaded for an entry of the shader list, and an options object
made by the run itself, is released exactly once if it was acquired. When a
graphics error makes the accelerated loop throw, the run releases nothing. The
keyboard and the built-in `textured` shader are left out. -/
theorem released_once_on_return (E : Env σ T Img) (M : Model σ T F) (R : Renderer σ T Img)
    (options : Option SlopOptions) (cancelled : Option Bool) (quiet : Bool)
    (frames : List Frame) :
    ((∃ sel, (SlopSelect E M R options cancelled quiet frames).outcome = .returned sel) →
      ∀ r, r ≠ .keyboard → r ≠ .shader .textured →
        ResEv.acquire r ∈ (SlopSelect E M R options cancelled quiet frames).res →
        (SlopSelect E M R options cancelled quiet frames).res.count (.release r) = 1) ∧
    ((∃ w, (SlopSelect E M R options cancelled quiet frames).outcome = .raised w) →
      (SlopSelect E M R options cancelled quiet frames).backend = .gl ∧
      ∀ r, ResEv.release r ∉ (SlopSelect E M R options cancelled quiet frames).res) := by
  have hx : ∀ (msg : String) (res1 : List ResEv),
      (res1 = [] ∨ res1 = [ResEv.attempt .window]) →
      probeWindow E (options.getD SlopOptions.defaults) = (none, msg, res1) →
      ((∃ sel, (SlopSelect E M R options cancelled quiet frames).outcome = .returned sel) →
        ∀ r, r ≠ .keyboard → r ≠ .shader .textured →
          ResEv.acquire r ∈ (SlopSelect E M R options cancelled quiet frames).res →
          (SlopSelect E M R options cancelled quiet frames).res.count (.release r) = 1) ∧
      ((∃ w, (SlopSelect E M R options cancelled quiet frames).outcome = .raised w) →
        (SlopSelect E M R options cancelled quiet frames).backend = .gl ∧
        ∀ r, ResEv.release r ∉ (SlopSelect E M R options cancelled quiet frames).res) := by
    intro msg res1 h1 hp
    obtain ⟨hb, ho, hr⟩ := SlopSelect_of_none E M R options cancelled quiet frames _ _ hp
    obtain ⟨hnr, hreturned⟩ :=
      XShapeSlopSelect_res M (E.xshapeMemory (options.getD SlopOptions.defaults)) E.fake
        (options.getD SlopOptions.defaults) cancelled (frames.map Frame.input)
    rw [hb, ho, hr]
    constructor
    · rintro ⟨sel, hsel⟩ r hk ht hacq
      rw [hreturned sel hsel, hsel] at hacq ⊢
      simp only [afterBackend] at hacq ⊢
      have hin := acquired_on_xshape_return _ _ _ _ h1 hacq
      have hc1 : res1.count (ResEv.release r) = 0 := by
        rcases h1 with h1 | h1 <;> subst h1 <;> simp
      simp only [List.count_append, count_release_sessionAcquires, count_release_teardown, hc1]
      rcases hin with ⟨h, hd⟩ | h | h | h | h | h
      · subst h; simp [List.count_cons, hd]
      · subst h; simp [List.count_cons]
      · subst h; simp [List.count_cons]
      · exact absurd h hk
      · subst h; simp [List.count_cons]
      · subst h; simp [List.count_cons]
    · rintro ⟨wh, hwh⟩
      exact absurd hwh (hnr wh)
  rcases probeWindow_cases E (options.getD SlopOptions.defaults) with
    ⟨-, -, w, -, hp⟩ | ⟨-, -, -, msg, hp⟩ | ⟨-, msg, hp⟩
  · obtain ⟨hb, ho, hr⟩ := SlopSelect_of_window E M R options cancelled quiet frames w _ _ hp
    obtain ⟨hraised, hreturned⟩ :=
      GLSlopSelect_res M R (E.glMemory (options.getD SlopOptions.defaults)) E.newPingpong
        (options.getD SlopOptions.defaults) cancelled w frames
    rw [hb, ho, hr]
    constructor
    · rintro ⟨sel, hsel⟩ r hk ht hacq
      rw [hreturned sel hsel, hsel] at hacq ⊢
      simp only [afterBackend] at hacq ⊢
      have hin := acquired_on_gl_return _ _ _ _ hacq
      simp only [List.count_append, count_release_sessionAcquires,
        count_release_shaderAcquires, count_release_teardown]
      rcases hin with ⟨h, hd⟩ | h | h | h | h | h | h | h | h | ⟨i, n, h, hmem⟩
      · subst h
        rw [count_release_shaderReleases_other _ _ (by intro s h; cases h)]
        simp [List.count_cons, hd]
      · subst h
        rw [count_release_shaderReleases_other _ _ (by intro s h; cases h)]
        simp [List.count_cons]
      · subst h
        rw [count_release_shaderReleases_other _ _ (by intro s h; cases h)]
        simp [List.count_cons]
      · exact absurd h hk
      · subst h
        rw [count_release_shaderReleases_other _ _ (by intro s h; cases h)]
        simp [List.count_cons]
      · subst h
        rw [count_release_shaderReleases_other _ _ (by intro s h; cases h)]
        simp [List.count_cons]
      · subst h
        rw [count_release_shaderReleases_other _ _ (by intro s h; cases h)]
        simp [List.count_cons]
      · subst h
        rw [count_release_shaderReleases_other _ _ (by intro s h; cases h)]
        simp [List.count_cons]
      · exact absurd h ht
      · subst h
        have h1 := buildShaders_count_le (options.getD SlopOptions.defaults).shaders 0 i n
        have h2 := List.count_pos_iff.mpr hmem
        rw [count_release_shaderReleases]
        simp [List.count_cons]
        omega
    · rintro ⟨wh, hwh⟩
      refine ⟨rfl, ?_⟩
      intro r hmem
      rw [hraised wh hwh, hwh] at hmem
      cases hd : options.isNone <;>
        cases hk : (options.getD SlopOptions.defaults).nokeyboard <;>
        simp [afterBackend, sessionAcquires, hd, hk, shaderAcquires] at hmem
  · exact hx msg _ (Or.inr rfl) hp
  · exact hx msg _ (Or.inl rfl) hp

/-- A returning run with the shader list `blur, textured` releases the loaded
shader once, and a run whose first frame surfaces `INVALID_OPERATION` is on the
accelerated backend and releases nothing, the mouse included. -/
theorem released_once_on_return_witness :
    (SlopSelect listEnv dragModel listRenderer
        (some { nokeyboard := false, noopengl := false, shaders := ["blur", "textured"] })
        (some true) false (dragMoves ++ [dragRelease]) : Session Drag Nat Int).res.count
      (.release (.shader (.loaded 0 "blur"))) = 1 ∧
    (SlopSelect listEnv dragModel listRenderer none (some true) false
        [{ frameAt false [] 5 5 with glError := 0x0502 }] : Session Drag Nat Int).backend
      = .gl ∧
    ResEv.release .mouse ∉
      (SlopSelect listEnv dragModel listRenderer none (some true) false
        [{ frameAt false [] 5 5 with glError := 0x0502 }] : Session Drag Nat Int).res :=
  ⟨(released_once_on_return listEnv dragModel listRenderer
      (some { nokeyboard := false, noopengl := false, shaders := ["blur", "textured"] })
      (some true) false (dragMoves ++ [dragRelease])).1
      ⟨{ x := 10, y := 10, w := 100, h := 50, id := 0 }, by decide⟩
      (.shader (.loaded 0 "blur")) (by decide) (by decide) (by decide),
   ((released_once_on_return listEnv dragModel listRenderer none (some true) false
      [{ frameAt false [] 5 5 with glError := 0x0502 }]).2
      ⟨"OpenGL threw an error: INVALID_OPERATION", by decide⟩).1,
   ((released_once_on_return listEnv dragModel listRenderer none (some true) false
      [{ frameAt false [] 5 5 with glError := 0x0502 }]).2
      ⟨"OpenGL threw an error: INVALID_OPERATION", by decide⟩).2 .mouse⟩

/-- Claim C9 as stated fails on the error path: a run whose first frame
surfaces `INVALID_OPERATION` throws out of `GLSlopSelect` and `SlopSelect`
with the display connection, the mouse, the window and the selection model
acquired and none of them released. -/
theorem nothing_released_when_frame_raises :
    (SlopSelect listEnv dragModel listRenderer none (some true) false
        [{ frameAt false [] 5 5 with glError := 0x0502 }] : Session Drag Nat Int).outcome
      = .raised "OpenGL threw an error: INVALID_OPERATION" ∧
    (∀ r ∈ [Res.x11, Res.mouse, Res.window, Res.memory],
      ResEv.acquire r ∈
        (SlopSelect listEnv dragModel listRenderer none (some true) false
          [{ frameAt false [] 5 5 with glError := 0x0502 }] : Session Drag Nat Int).res ∧
      (SlopSelect listEnv dragModel listRenderer none (some true) false
          [{ frameAt false [] 5 5 with glError := 0x0502 }] : Session Drag Nat Int).res.count
        (.release r) = 0) := by
  refine ⟨by decide, by decide⟩

/-- No path of `SlopSelect` deletes the keyboard made at line 78. -/
theorem keyboard_never_released (E : Env σ T Img) (M : Model σ T F) (R : Renderer σ T Img)
    (options : Option SlopOptions) (cancelled : Option Bool) (quiet : Bool)
    (frames : List Frame) :
    ResEv.release .keyboard ∉ (SlopSelect E M R options cancelled quiet frames).res := by
  intro hmem
  rcases probeWindow_cases E (options.getD SlopOptions.defaults) with
    ⟨-, -, w, -, hp⟩ | ⟨-, -, -, msg, hp⟩ | ⟨-, msg, hp⟩
  · rw [(SlopSelect_of_window E M R options cancelled quiet frames w _ _ hp).2.2] at hmem
    simp only [List.mem_append] at hmem
    rcases hmem with ((h | h) | h) | h
    · rcases sessionAcquires_mem _ _ _ h with h | h | h | h <;> cases h
    · simp at h
    · simp only [GLSlopSelect] at h
      generalize (glLoop M R (options.getD SlopOptions.defaults) w.camera
        (buildShaders 0 (options.getD SlopOptions.defaults).shaders) frames _).2 = s at h
      cases s <;> simp [shaderAcquires, shaderReleases] at h
    · rcases afterBackend_mem _ _ _ h with h | h | h <;> cases h
  · rw [(SlopSelect_of_none E M R options cancelled quiet frames _ _ hp).2.2] at hmem
    simp only [List.mem_append] at hmem
    rcases hmem with ((h | h) | h) | h
    · rcases sessionAcquires_mem _ _ _ h with h | h | h | h <;> cases h
    · simp at h
    · rcases XShapeSlopSelect_res_mem M _ _ _ _ _ _ h with h | h | h | h <;> cases h
    · rcases afterBackend_mem _ _ _ h with h | h | h <;> cases h
  · rw [(SlopSelect_of_none E M R options cancelled quiet frames _ _ hp).2.2] at hmem
    simp only [List.mem_append] at hmem
    rcases hmem with ((h | h) | h) | h
    · rcases sessionAcquires_mem _ _ _ h with h | h | h | h <;> cases h
    · simp at h
    · rcases XShapeSlopSelect_res_mem M _ _ _ _ _ _ h with h | h | h | h <;> cases h
    · rcases afterBackend_mem _ _ _ h with h | h | h <;> cases h

end SessionClaims

end Slop
